import Mathlib

/-!
Verification development for the procto-bo lead-qualification service.

The Python sources (`app.py`, `sheets.py`, `skillspace.py`) are shallowly
embedded below:

* inbound webhook payloads are modelled as a JSON-like tree `J`
  (numbers as rationals; `float(...)` coercion is modelled on JSON numbers);
* the Google-Sheets worksheet is modelled as `Sheet := List (List String)`
  with 1-based cell addressing matching gspread, where `ws.find` scans cells
  in row-major order for an exact string match;
* each Python function is translated to an executable Lean definition of the
  same name, and the webhook handler's store / response / notification
  effects are captured by `skillspace_webhook`.
-/

namespace ProctoBo

/-! ## JSON payload model (`app.py` payload parsing) -/

/-- JSON-like values as received by the webhook.  Strings, numbers
(rationals stand in for Python floats), objects and `null`. -/
inductive J where
  | null : J
  | str (s : String) : J
  | num (q : ℚ) : J
  | obj (fields : List (String × J)) : J

/-- Python `str.strip()`: drop whitespace from both ends.  (`String.trim`
computes the same function but its `Substring`-based implementation does not
reduce inside the kernel, so the model uses this structural version.) -/
def pyStrip (s : String) : String :=
  String.mk ((s.data.dropWhile Char.isWhitespace).reverse.dropWhile Char.isWhitespace).reverse

/-- Python `str.isdigit()` (ASCII decimal digits): non-empty and all digits. -/
def pyIsDigit (s : String) : Bool :=
  !s.data.isEmpty && s.data.all Char.isDigit

/-- Python `int(...)` applied to an all-digit string. -/
def pyDigitsToNat (s : String) : Nat :=
  s.data.foldl (fun n c => 10 * n + (c.toNat - '0'.toNat)) 0

/-- Dictionary access `cur[key]` guarded by `isinstance(cur, dict) and key in cur`. -/
def J.get : J → String → Option J
  | J.obj fields, k => fields.lookup k
  | _, _ => none

/-- Translation of `deep_get` (app.py): walk a key path, `None` on any miss. -/
def deep_get (d : J) (path : List String) : Option J :=
  path.foldl (fun cur k => cur.bind (fun v => v.get k)) (some d)

/-- Python's `deep_get` cannot distinguish a missing key from a stored JSON
`null` (both come back as `None`), so a found `null` collapses to `none`. -/
def pyGet (o : Option J) : Option J :=
  match o with
  | some J.null => none
  | x => x

/-- Python `float(x)` as used on lesson scores, modelled on JSON numbers;
any non-numeric value makes `float` raise, which the source turns into `None`. -/
def J.toNum : J → Option ℚ
  | J.num q => some q
  | _ => none

/-- Python `str(x)`.  Strings render as themselves; the rendering of
non-string values is a stand-in (no claim depends on it). -/
def J.render : J → String
  | J.str s => s
  | J.num q => toString q
  | J.null => "None"
  | J.obj _ => "obj"

/-- Guard `isinstance(v, str) and v` from `extract_skillspace_event`. -/
def strTruthy : Option J → Option String
  | some (J.str s) => if s ≠ "" then some s else none
  | _ => none

/-- Guard `isinstance(v, str) and v.strip()` from `extract_email`;
on success the stripped string is returned. -/
def strTrimmed : Option J → Option String
  | some (J.str s) => if pyStrip s ≠ "" then some (pyStrip s) else none
  | _ => none

/-- Translation of `extract_skillspace_event` (app.py:57-63). -/
def extract_skillspace_event (payload : J) : String :=
  (strTruthy (payload.get "event") <|> strTruthy (payload.get "type") <|>
    strTruthy (payload.get "event_name") <|> strTruthy (payload.get "name")).getD
    (match deep_get payload ["data", "event"] with
     | some (J.str s) => s
     | _ => "")

/-- Translation of `extract_email` (app.py:66-78). -/
def extract_email (payload : J) : Option String :=
  strTrimmed (deep_get payload ["user", "email"]) <|>
  strTrimmed (deep_get payload ["student", "email"]) <|>
  strTrimmed (deep_get payload ["data", "user", "email"]) <|>
  strTrimmed (deep_get payload ["data", "student", "email"]) <|>
  strTrimmed (deep_get payload ["email"]) <|>
  strTrimmed (deep_get payload ["data", "email"])

/-- Raw lesson-score lookup of `extract_lesson_score` (app.py:82-86):
first `("lesson","score")`, then `("data","lesson","score")`. -/
def rawLessonScoreVal (payload : J) : Option J :=
  pyGet (deep_get payload ["lesson", "score"]) <|>
  pyGet (deep_get payload ["data", "lesson", "score"])

/-- Raw score after the `float(...)` coercion, before normalization. -/
def rawLessonScore (payload : J) : Option ℚ :=
  (rawLessonScoreVal payload).bind J.toNum

/-- Translation of `extract_lesson_score` (app.py:81-96): fetch, coerce with
`float`, then normalize `0..1 -> percent (except exactly 1.0)`. -/
def extract_lesson_score (payload : J) : Option ℚ :=
  match rawLessonScoreVal payload with
  | none => none
  | some v =>
    match v.toNum with
    | none => none
    | some sc => some (if 0 ≤ sc ∧ sc ≤ 1 ∧ sc ≠ 1 then sc * 100 else sc)

/-- Translation of `extract_lesson_id` (app.py:99-104). -/
def extract_lesson_id (payload : J) : Option String :=
  (pyGet (deep_get payload ["lesson", "id"])).map J.render <|>
  (pyGet (deep_get payload ["data", "lesson", "id"])).map J.render <|>
  (pyGet (deep_get payload ["lesson", "lesson_id"])).map J.render

/-- Translation of `extract_course_id` (app.py:107-112). -/
def extract_course_id (payload : J) : Option String :=
  (pyGet (deep_get payload ["course", "id"])).map J.render <|>
  (pyGet (deep_get payload ["data", "course", "id"])).map J.render <|>
  (pyGet (deep_get payload ["course_id"])).map J.render <|>
  (pyGet (deep_get payload ["data", "course_id"])).map J.render

/-- Stage chosen by the webhook handler (app.py:352-356):
`TEST_FAILED` by default, upgraded by a present score against the thresholds. -/
def classifyStage (score : Option ℚ) (passThr greatThr : ℚ) : String :=
  match score with
  | some s =>
    if s ≥ greatThr then "TEST_GREAT"
    else if s ≥ passThr then "TEST_PASSED"
    else "TEST_FAILED"
  | none => "TEST_FAILED"

/-! ## Worksheet model (`sheets.py`) -/

/-- A worksheet: a list of rows of cells; row 1 is the header row. -/
abbrev Sheet := List (List String)

/-- List element at `i` (0-based) with an explicit default, used for both
cell access (default `""`, matching gspread's empty cell) and row access
(default `[]`). -/
def nthD {α : Type} (d : α) : List α → Nat → α
  | [], _ => d
  | x :: _, 0 => x
  | _ :: xs, n + 1 => nthD d xs n

/-- Set list element `i` (0-based), padding with the default so that the
write always lands —  gspread's `update_cell` grows the grid as needed. -/
def setNthD {α : Type} (d : α) : List α → Nat → α → List α
  | [], 0, v => [v]
  | [], n + 1, v => d :: setNthD d [] n v
  | _ :: xs, 0, v => v :: xs
  | x :: xs, n + 1, v => x :: setNthD d xs n v

/-- Row `i` (0-based) of a sheet. -/
def getRow (s : Sheet) (i : Nat) : List String := nthD [] s i

/-- Cell at 1-based coordinates `(r, c)`, like `ws.cell(r, c).value or ""`. -/
def getCell (s : Sheet) (r c : Nat) : String := nthD "" (getRow s (r - 1)) (c - 1)

/-- Translation of `ws.update_cell(r, c, v)` (1-based coordinates). -/
def setCell (s : Sheet) (r c : Nat) (v : String) : Sheet :=
  setNthD [] s (r - 1) (setNthD "" (getRow s (r - 1)) (c - 1) v)

/-- The canonical column set `REQUIRED_HEADERS` (sheets.py:10-26). -/
def REQUIRED_HEADERS : List String :=
  ["created_at", "updated_at", "telegram_id", "email", "age", "gender",
   "country", "language", "english_level", "amazon_experience", "stage",
   "last_event", "lesson_score", "lesson_id", "course_id"]

/-- Translation of `_ensure_schema` (sheets.py:82-105): create the header row
when absent, otherwise append the missing canonical columns to the right. -/
def ensure_schema (s : Sheet) : Sheet :=
  match s with
  | [] => [REQUIRED_HEADERS]
  | headerRow :: rest =>
    if headerRow.isEmpty then (headerRow :: rest) ++ [REQUIRED_HEADERS]
    else
      let existing := (headerRow.map pyStrip).filter (fun h => h != "")
      let missing := REQUIRED_HEADERS.filter (fun h => !(existing.contains h))
      if missing.isEmpty then headerRow :: rest
      else
        ((existing ++ missing) ++ headerRow.drop (existing ++ missing).length) :: rest

/-- Translation of `_headers` (sheets.py:107-110): stripped header row. -/
def wsHeaders (s : Sheet) : List String := (getRow s 0).map pyStrip

/-- Translation of `_header_index` (sheets.py:112-114): 1-based column of a
non-empty header name; a later duplicate header overrides an earlier one,
exactly as in the Python dict comprehension. -/
def header_index (headers : List String) (name : String) : Option Nat :=
  if name = "" then none
  else
    match (headers.enum.filter (fun p => p.2 == name)).getLast? with
    | some p => some (p.1 + 1)
    | none => none

/-- Row scan behind `ws.find`: first row (1-based, starting at `i`) holding a
cell exactly equal to the query, scanning cells in row-major order. -/
def findRowAux : List (List String) → String → Nat → Option Nat
  | [], _, _ => none
  | row :: rest, q, i => if row.contains q then some i else findRowAux rest q (i + 1)

/-- Translation of `ws.find(q)`: row of the first matching cell, any column. -/
def findCellRow (s : Sheet) (q : String) : Option Nat := findRowAux s q 1

/-- Translation of `_find_row_by_email` (sheets.py:126-133). -/
def find_row_by_email (s : Sheet) (email : String) : Option Nat :=
  if email = "" then none else findCellRow s email

/-- Translation of `_find_row_by_telegram` (sheets.py:135-140). -/
def find_row_by_telegram (s : Sheet) (telegram_id : Nat) : Option Nat :=
  findCellRow s (toString telegram_id)

/-! ## Lead store operations (`sheets.py` public ops) -/

/-- Translation of the `LeadData` dataclass (sheets.py:29-39). -/
structure LeadData where
  telegram_id : Nat
  email : String
  age : String := ""
  gender : String := ""
  country : String := ""
  language : String := ""
  english_level : String := ""
  amazon_experience : String := ""
  stage : String := "NEW"

/-- The `values_map` dict literal of `upsert_lead` (sheets.py:150-166),
in Python insertion order. -/
def values_map (lead : LeadData) (now_iso : String) : List (String × String) :=
  [("created_at", now_iso), ("updated_at", now_iso),
   ("telegram_id", toString lead.telegram_id), ("email", lead.email),
   ("age", lead.age), ("gender", lead.gender), ("country", lead.country),
   ("language", lead.language), ("english_level", lead.english_level),
   ("amazon_experience", lead.amazon_experience), ("stage", lead.stage),
   ("last_event", ""), ("lesson_score", ""), ("lesson_id", ""),
   ("course_id", "")]

/-- Reassignment `values_map[k] = v` on an association list with unique keys. -/
def setVal (vm : List (String × String)) (k v : String) : List (String × String) :=
  vm.map (fun p => if p.1 = k then (p.1, v) else p)

/-- The update loops of `upsert_lead` / `update_from_skillspace`
(sheets.py:182-185, 217-220): write each supplied field whose column exists. -/
def applyUpdates (s : Sheet) (row : Nat) (headers : List String)
    (updates : List (String × String)) : Sheet :=
  updates.foldl
    (fun acc kv =>
      match header_index headers kv.1 with
      | some col => setCell acc row col kv.2
      | none => acc)
    s

/-- Translation of `upsert_lead` (sheets.py:143-187).  Returns the sheet
after the operation together with the `(row, "insert"|"update")` result. -/
def upsert_lead (s : Sheet) (lead : LeadData) (now_iso : String) :
    Sheet × Nat × String :=
  let ws := ensure_schema s
  let headers := wsHeaders ws
  let row? := (find_row_by_email ws lead.email).orElse
    (fun _ => find_row_by_telegram ws lead.telegram_id)
  match row? with
  | none =>
    let row_values := headers.map (fun h => ((values_map lead now_iso).lookup h).getD "")
    let ws2 := ws ++ [row_values]
    (ws2, ws2.length, "insert")
  | some row =>
    let vm := values_map lead now_iso
    let vm2 :=
      match header_index headers "created_at" with
      | some created_col =>
        let existing_created := pyStrip (getCell ws row created_col)
        if existing_created ≠ "" then setVal vm "created_at" existing_created else vm
      | none => vm
    (applyUpdates ws row headers vm2, row, "update")

/-- Cell text stored for the lesson score, `"" if lesson_score is None else
str(lesson_score)` (sheets.py:212); `toString` stands in for Python float
rendering. -/
def scoreCellStr (lesson_score : Option ℚ) : String :=
  match lesson_score with
  | none => ""
  | some q => toString q

/-- Translation of `update_from_skillspace` (sheets.py:189-222).  Returns the
sheet after the operation and the updated row (if any). -/
def update_from_skillspace (s : Sheet) (email stage now_iso event_name : String)
    (lesson_score : Option ℚ) (lesson_id course_id : Option String) :
    Sheet × Option Nat :=
  let ws := ensure_schema s
  let headers := wsHeaders ws
  match find_row_by_email ws email with
  | none => (ws, none)
  | some row =>
    let updates : List (String × String) :=
      [("updated_at", now_iso), ("stage", stage), ("last_event", event_name),
       ("lesson_score", scoreCellStr lesson_score),
       ("lesson_id", lesson_id.getD ""), ("course_id", course_id.getD "")]
    (applyUpdates ws row headers updates, some row)

/-- Translation of `get_telegram_id_by_email` (sheets.py:224-238); the first
component is the sheet after `_get_ws` (schema self-healing included),
the second the parsed id.  `String.toNat?` succeeds exactly on non-empty
all-digit strings, matching `int(val) if val.isdigit() else None`. -/
def get_telegram_id_by_email (s : Sheet) (email : String) : Sheet × Option Nat :=
  let ws := ensure_schema s
  let headers := wsHeaders ws
  match find_row_by_email ws email with
  | none => (ws, none)
  | some row =>
    match header_index headers "telegram_id" with
    | none => (ws, none)
    | some col =>
      let val := pyStrip (getCell ws row col)
      (ws, if pyIsDigit val then some (pyDigitsToNat val) else none)

/-! ## Enrollment call (`skillspace.py`) -/

/-- The HTTP response the invite call sees. -/
structure HttpResponse where
  status : Nat
  text : String

/-- Result of `invite_student`: normal return or a raised `SkillspaceError`. -/
inductive InviteResult where
  | ok : InviteResult
  | error (msg : String) : InviteResult
deriving DecidableEq

/-- Translation of `invite_student` (skillspace.py:8-40): return on status
`200`, otherwise raise `SkillspaceError(f"Invite failed: {status} | {text}")`. -/
def invite_student (r : HttpResponse) : InviteResult :=
  if r.status = 200 then InviteResult.ok
  else InviteResult.error ("Invite failed: " ++ toString r.status ++ " | " ++ r.text)

/-! ## Webhook handler and intake flow (`app.py`) -/

/-- The configuration state the webhook handler reads (app.py:272-275). -/
structure Config where
  expectedCourseId : String := ""
  passThr : ℚ := 50
  greatThr : ℚ := 80

/-- The JSON body returned by the webhook handler: one field per key that any
of its `return` dicts can carry (app.py:333,338,344,414); `ok` is the
acknowledgment flag. -/
structure Resp where
  ok : Bool
  ignored : Bool := false
  error : Option String := none
  reason : Option String := none
  event : Option String := none
  email : Option String := none
  score : Option ℚ := none
  stage : Option String := none
  lessonId : Option String := none
  courseId : Option String := none

/-- Course filter of the webhook (app.py:341-344):
`expected and course_id and str(course_id) != str(expected)`. -/
def courseBlocked (cfg : Config) (payload : J) : Bool :=
  (pyStrip cfg.expectedCourseId != "") &&
    (match extract_course_id payload with
     | some c => (c != "") && (c != pyStrip cfg.expectedCourseId)
     | none => false)

/-- Processing of a `test-end` event past the guards (app.py:346-414): score
extraction, stage classification, store update, telegram lookup.  Returns the
sheet after the store calls, the response body, and the telegram id a
notification is sent to (`none` when the notification is skipped, mirroring
`if telegram_id:` which also skips on `0`). -/
def processTestEnd (cfg : Config) (s : Sheet) (payload : J) (email now : String) :
    Sheet × Resp × Option Nat :=
  let score := extract_lesson_score payload
  let lesson_id := extract_lesson_id payload
  let course_id := extract_course_id payload
  let stage := classifyStage score cfg.passThr cfg.greatThr
  let u := update_from_skillspace s email stage now "test-end" score lesson_id course_id
  let g := get_telegram_id_by_email u.1 email
  let notify := match g.2 with
    | some t => if t = 0 then none else some t
    | none => none
  (g.1,
   { ok := true, event := some "test-end", email := some email, score := score,
     stage := some stage, lessonId := lesson_id },
   notify)

/-- Translation of the `skillspace_webhook` handler (app.py:323-414), after
token authentication.  Returns the sheet after processing, the response body,
and the notification target. -/
def skillspace_webhook (cfg : Config) (s : Sheet) (payload : J) (now : String) :
    Sheet × Resp × Option Nat :=
  let event_name := extract_skillspace_event payload
  if event_name ≠ "test-end" then
    (s, { ok := true, ignored := true, event := some event_name }, none)
  else
    match extract_email payload with
    | none => (s, { ok := true, error := some "email_not_found_in_payload" }, none)
    | some email =>
      if courseBlocked cfg payload then
        (s, { ok := true, ignored := true, reason := some "course_id_mismatch",
              courseId := extract_course_id payload }, none)
      else
        processTestEnd cfg s payload email now

/-- Translation of the `LeadProfile` dataclass (tunel.py:29-38). -/
structure LeadProfile where
  telegram_id : Nat
  email : String
  age : String := ""
  gender : String := ""
  country : String := ""
  language : String := ""
  english_level : String := ""
  amazon_experience : String := ""

/-- The `LeadData` built from a profile at a given stage (app.py:160-170,
app.py:196-206). -/
def leadOf (p : LeadProfile) (stage : String) : LeadData :=
  { telegram_id := p.telegram_id, email := p.email, age := p.age,
    gender := p.gender, country := p.country, language := p.language,
    english_level := p.english_level, amazon_experience := p.amazon_experience,
    stage := stage }

/-- Enrollment configuration read by `on_lead_completed` (app.py:138-143). -/
structure InviteEnv where
  expectedCourseId : String := ""
  apiKey : String := ""

/-- Store effect of `on_lead_completed` (app.py:157-218): upsert at
`PROFILE_COLLECTED`; when enrollment is configured and the invite call
returns normally, upsert again at `INVITED_TO_COURSE`; on an invite error the
first upsert's sheet is kept. -/
def on_lead_completed_sheet (env : InviteEnv) (resp : HttpResponse) (s : Sheet)
    (profile : LeadProfile) (now : String) : Sheet :=
  let u := upsert_lead s (leadOf profile "PROFILE_COLLECTED") now
  if env.expectedCourseId ≠ "" ∧ env.apiKey ≠ "" then
    match invite_student resp with
    | InviteResult.ok => (upsert_lead u.1 (leadOf profile "INVITED_TO_COURSE") now).1
    | InviteResult.error _ => u.1
  else u.1

/-! ## Lemmas about the cell primitives -/

theorem nthD_setNthD_same {α : Type} (d : α) :
    ∀ (l : List α) (i : Nat) (v : α), nthD d (setNthD d l i v) i = v
  | [], 0, _ => rfl
  | [], n + 1, v => by
    simpa [setNthD, nthD] using nthD_setNthD_same d [] n v
  | _ :: _, 0, _ => rfl
  | _ :: xs, n + 1, v => by
    simpa [setNthD, nthD] using nthD_setNthD_same d xs n v

theorem nthD_setNthD_ne {α : Type} (d : α) :
    ∀ (l : List α) (i j : Nat) (v : α), i ≠ j →
      nthD d (setNthD d l i v) j = nthD d l j
  | [], 0, 0, _, h => absurd rfl h
  | [], 0, _ + 1, _, _ => rfl
  | [], _ + 1, 0, _, _ => rfl
  | [], i + 1, j + 1, v, h => by
    have := nthD_setNthD_ne d [] i j v (fun hh => h (by rw [hh]))
    simpa [setNthD, nthD] using this
  | _ :: _, 0, 0, _, h => absurd rfl h
  | _ :: xs, 0, _ + 1, _, _ => rfl
  | _ :: _, _ + 1, 0, _, _ => rfl
  | _ :: xs, i + 1, j + 1, v, h => by
    have := nthD_setNthD_ne d xs i j v (fun hh => h (by rw [hh]))
    simpa [setNthD, nthD] using this

theorem length_setNthD {α : Type} (d : α) :
    ∀ (l : List α) (i : Nat) (v : α),
      (setNthD d l i v).length = max l.length (i + 1)
  | [], 0, _ => rfl
  | [], i + 1, v => by
    simp [setNthD, length_setNthD d [] i v]
  | _ :: _, 0, _ => by simp [setNthD]
  | _ :: xs, i + 1, v => by
    simp [setNthD, length_setNthD d xs i v]
    omega

theorem getCell_setCell_same (s : Sheet) (r c : Nat) (v : String) :
    getCell (setCell s r c v) r c = v := by
  unfold getCell setCell getRow
  rw [nthD_setNthD_same, nthD_setNthD_same]

theorem getRow_setCell_ne (s : Sheet) (r c : Nat) (v : String) (i : Nat)
    (h : i ≠ r - 1) : getRow (setCell s r c v) i = getRow s i := by
  unfold setCell getRow
  exact nthD_setNthD_ne [] s (r - 1) i _ (fun hh => h hh.symm)

theorem getCell_setCell_ne_row (s : Sheet) (r c : Nat) (v : String)
    (r' c' : Nat) (h1 : 1 ≤ r) (h2 : 1 ≤ r') (h : r' ≠ r) :
    getCell (setCell s r c v) r' c' = getCell s r' c' := by
  unfold getCell
  rw [getRow_setCell_ne]
  omega

theorem getCell_setCell_ne_col (s : Sheet) (r c : Nat) (v : String)
    (r' c' : Nat) (h1 : 1 ≤ c) (h2 : 1 ≤ c') (h : c' ≠ c) :
    getCell (setCell s r c v) r' c' = getCell s r' c' := by
  by_cases hr : r' - 1 = r - 1
  · unfold getCell setCell getRow
    rw [hr, nthD_setNthD_same, nthD_setNthD_ne]
    omega
  · unfold getCell
    rw [getRow_setCell_ne _ _ _ _ _ hr]

theorem length_setCell (s : Sheet) (r c : Nat) (v : String) (hr : 1 ≤ r) :
    (setCell s r c v).length = max s.length r := by
  unfold setCell
  rw [length_setNthD]
  congr 1
  omega

theorem getRow_append_self (s : Sheet) (x : List String) :
    getRow (s ++ [x]) s.length = x := by
  induction s with
  | nil => rfl
  | cons a t ih => simpa [getRow, nthD] using ih

theorem getRow_append_lt (s : Sheet) (x : List String) (i : Nat)
    (h : i < s.length) : getRow (s ++ [x]) i = getRow s i := by
  induction s generalizing i with
  | nil => simp at h
  | cons a t ih =>
    cases i with
    | zero => rfl
    | succ n =>
      have := ih n (by simpa using Nat.lt_of_succ_lt_succ h)
      simpa [getRow, nthD] using this

/-! ## Lemmas about the row-major cell scan (`ws.find`) -/

theorem contains_of_nthD (l : List String) (i : Nat)
    (h : nthD "" l i ≠ "") : l.contains (nthD "" l i) = true := by
  induction l generalizing i with
  | nil => simp [nthD] at h
  | cons x xs ih =>
    cases i with
    | zero =>
      show (x :: xs).contains x = true
      rw [List.contains_cons]
      simp
    | succ n =>
      have hx : nthD "" xs n ≠ "" := by simpa [nthD] using h
      have hcont := ih n hx
      show (x :: xs).contains (nthD "" xs n) = true
      rw [List.contains_cons, hcont, Bool.or_true]

theorem findRowAux_cons (row : List String) (rest : List (List String))
    (q : String) (i : Nat) :
    findRowAux (row :: rest) q i =
      if row.contains q then some i else findRowAux rest q (i + 1) := rfl

theorem findRowAux_bounds :
    ∀ (rows : List (List String)) (q : String) (i r : Nat),
      findRowAux rows q i = some r → i ≤ r ∧ r - i < rows.length
  | [], _, _, _, h => by simp [findRowAux] at h
  | row :: rest, q, i, r, h => by
    by_cases hc : row.contains q = true
    · rw [findRowAux_cons, if_pos hc] at h
      have := Option.some.inj h
      simp only [List.length_cons]
      omega
    · rw [findRowAux_cons, if_neg hc] at h
      have := findRowAux_bounds rest q (i + 1) r h
      simp only [List.length_cons]
      omega

theorem findRowAux_found :
    ∀ (rows : List (List String)) (q : String) (i r : Nat),
      findRowAux rows q i = some r → (getRow rows (r - i)).contains q = true
  | [], _, _, _, h => by simp [findRowAux] at h
  | row :: rest, q, i, r, h => by
    by_cases hc : row.contains q = true
    · rw [findRowAux_cons, if_pos hc] at h
      have hir := Option.some.inj h
      have h0 : r - i = 0 := by omega
      rw [h0]
      exact hc
    · rw [findRowAux_cons, if_neg hc] at h
      have hb := findRowAux_bounds rest q (i + 1) r h
      have hrec := findRowAux_found rest q (i + 1) r h
      have hri : r - i = (r - (i + 1)) + 1 := by omega
      rw [hri]
      exact hrec

theorem findRowAux_before :
    ∀ (rows : List (List String)) (q : String) (i r : Nat),
      findRowAux rows q i = some r →
      ∀ j, j < r - i → (getRow rows j).contains q = false
  | [], _, _, _, h => by simp [findRowAux] at h
  | row :: rest, q, i, r, h => by
    by_cases hc : row.contains q = true
    · rw [findRowAux_cons, if_pos hc] at h
      have hir := Option.some.inj h
      intro j hj
      omega
    · rw [findRowAux_cons, if_neg hc] at h
      intro j hj
      cases j with
      | zero =>
        show row.contains q = false
        exact Bool.eq_false_iff.mpr hc
      | succ n =>
        have hb := findRowAux_bounds rest q (i + 1) r h
        exact findRowAux_before rest q (i + 1) r h n (by omega)

theorem findRowAux_intro :
    ∀ (rows : List (List String)) (q : String) (i k : Nat),
      (∀ j, j < k → (getRow rows j).contains q = false) →
      (getRow rows k).contains q = true →
      k < rows.length →
      findRowAux rows q i = some (i + k)
  | [], _, _, k, _, _, hlen => by simp at hlen
  | row :: rest, q, i, k, hbefore, hk, hlen => by
    cases k with
    | zero =>
      have hc : row.contains q = true := hk
      rw [findRowAux_cons, if_pos hc]
      simp
    | succ n =>
      have h0 : row.contains q = false := hbefore 0 (Nat.succ_pos n)
      have hrec := findRowAux_intro rest q (i + 1) n
        (fun j hj => hbefore (j + 1) (by omega))
        hk
        (by simpa using Nat.lt_of_succ_lt_succ hlen)
      rw [findRowAux_cons,
        if_neg (fun hcc => by rw [h0] at hcc; exact Bool.false_ne_true hcc), hrec]
      congr 1
      omega

theorem find_row_by_email_elim (s : Sheet) (e : String) (r : Nat)
    (h : find_row_by_email s e = some r) :
    e ≠ "" ∧ findRowAux s e 1 = some r := by
  unfold find_row_by_email at h
  by_cases he : e = ""
  · simp [he] at h
  · exact ⟨he, by simpa [he, findCellRow] using h⟩

/-! ## Schema lemmas -/

theorem ensure_schema_canonical (rest : Sheet) :
    ensure_schema (REQUIRED_HEADERS :: rest) = REQUIRED_HEADERS :: rest := rfl

theorem wsHeaders_canonical (rest : Sheet) :
    wsHeaders (REQUIRED_HEADERS :: rest) = REQUIRED_HEADERS := rfl

theorem ensure_schema_of_head (s : Sheet) (hs : s ≠ [])
    (hh : getRow s 0 = REQUIRED_HEADERS) : ensure_schema s = s := by
  cases s with
  | nil => exact absurd rfl hs
  | cons a t =>
    have ha : a = REQUIRED_HEADERS := hh
    rw [ha]
    exact ensure_schema_canonical t

/-! ## Write sequences -/

/-- A sequence of `update_cell` calls on one row: `(column, value)` pairs
applied left to right. -/
def applyWrites (s : Sheet) (r : Nat) (ws : List (Nat × String)) : Sheet :=
  ws.foldl (fun acc cv => setCell acc r cv.1 cv.2) s

theorem applyWrites_nil (s : Sheet) (r : Nat) : applyWrites s r [] = s := rfl

theorem applyWrites_cons (s : Sheet) (r c : Nat) (v : String)
    (tl : List (Nat × String)) :
    applyWrites s r ((c, v) :: tl) = applyWrites (setCell s r c v) r tl := rfl

theorem applyWrites_append (s : Sheet) (r : Nat) (l1 l2 : List (Nat × String)) :
    applyWrites s r (l1 ++ l2) = applyWrites (applyWrites s r l1) r l2 := by
  unfold applyWrites
  rw [List.foldl_append]

theorem getCell_applyWrites_other_row (ws : List (Nat × String)) :
    ∀ (s : Sheet) (r r' c' : Nat), 1 ≤ r → 1 ≤ r' → r' ≠ r →
      getCell (applyWrites s r ws) r' c' = getCell s r' c' := by
  induction ws with
  | nil => intro s r r' c' _ _ _; rfl
  | cons cv tl ih =>
    intro s r r' c' h1 h2 h
    obtain ⟨c, v⟩ := cv
    rw [applyWrites_cons, ih (setCell s r c v) r r' c' h1 h2 h,
      getCell_setCell_ne_row _ _ _ _ _ _ h1 h2 h]

theorem getCell_applyWrites_not_written (ws : List (Nat × String)) :
    ∀ (s : Sheet) (r r' c' : Nat), 1 ≤ c' →
      (∀ cv ∈ ws, 1 ≤ cv.1 ∧ c' ≠ cv.1) →
      getCell (applyWrites s r ws) r' c' = getCell s r' c' := by
  induction ws with
  | nil => intro s r r' c' _ _; rfl
  | cons cv tl ih =>
    intro s r r' c' h2 h
    obtain ⟨c, v⟩ := cv
    have hc := h (c, v) (List.mem_cons_self _ _)
    rw [applyWrites_cons,
      ih (setCell s r c v) r r' c' h2 (fun cv hcv => h cv (List.mem_cons_of_mem _ hcv)),
      getCell_setCell_ne_col _ _ _ _ _ _ hc.1 h2 hc.2]

theorem getRow_applyWrites_ne (ws : List (Nat × String)) :
    ∀ (s : Sheet) (r i : Nat), i ≠ r - 1 →
      getRow (applyWrites s r ws) i = getRow s i := by
  induction ws with
  | nil => intro s r i _; rfl
  | cons cv tl ih =>
    intro s r i h
    obtain ⟨c, v⟩ := cv
    rw [applyWrites_cons, ih (setCell s r c v) r i h, getRow_setCell_ne _ _ _ _ _ h]

theorem length_applyWrites (ws : List (Nat × String)) :
    ∀ (s : Sheet) (r : Nat), 1 ≤ r → r ≤ s.length →
      (applyWrites s r ws).length = s.length := by
  induction ws with
  | nil => intro s r _ _; rfl
  | cons cv tl ih =>
    intro s r h1 hr
    obtain ⟨c, v⟩ := cv
    have hlen : (setCell s r c v).length = s.length := by
      rw [length_setCell _ _ _ _ h1]
      omega
    rw [applyWrites_cons, ih (setCell s r c v) r h1 (by omega), hlen]

/-! ## Characterizations of the store operations on a canonical sheet -/

/-- The column/value writes performed by `update_from_skillspace` on a
canonical sheet, in source order (sheets.py:208-220). -/
def updateWrites (stage now_iso event_name : String) (sc : Option ℚ)
    (lid cid : Option String) : List (Nat × String) :=
  [(2, now_iso), (11, stage), (12, event_name), (13, scoreCellStr sc),
   (14, lid.getD ""), (15, cid.getD "")]

/-- The column/value writes performed by the update branch of `upsert_lead`
on a canonical sheet, in source order (sheets.py:150-185); `created` is the
value written to `created_at`. -/
def upsertWrites (lead : LeadData) (created now_iso : String) :
    List (Nat × String) :=
  [(1, created), (2, now_iso), (3, toString lead.telegram_id), (4, lead.email),
   (5, lead.age), (6, lead.gender), (7, lead.country), (8, lead.language),
   (9, lead.english_level), (10, lead.amazon_experience), (11, lead.stage),
   (12, ""), (13, ""), (14, ""), (15, "")]


theorem update_from_skillspace_eq (rest : Sheet)
    (email stage now_iso event_name : String) (sc : Option ℚ)
    (lid cid : Option String) (r : Nat)
    (hfind : find_row_by_email (REQUIRED_HEADERS :: rest) email = some r) :
    update_from_skillspace (REQUIRED_HEADERS :: rest) email stage now_iso
      event_name sc lid cid =
      (applyWrites (REQUIRED_HEADERS :: rest) r
         (updateWrites stage now_iso event_name sc lid cid),
       some r) := by
  simp only [update_from_skillspace, ensure_schema_canonical, wsHeaders_canonical,
    hfind]
  rfl

theorem update_from_skillspace_none (rest : Sheet)
    (email stage now_iso event_name : String) (sc : Option ℚ)
    (lid cid : Option String)
    (hfind : find_row_by_email (REQUIRED_HEADERS :: rest) email = none) :
    update_from_skillspace (REQUIRED_HEADERS :: rest) email stage now_iso
      event_name sc lid cid = (REQUIRED_HEADERS :: rest, none) := by
  simp only [update_from_skillspace, ensure_schema_canonical, hfind]

/-- The row appended by the insert branch of `upsert_lead` on a canonical
header row: `values_map` values in canonical column order. -/
def insertRowValues (lead : LeadData) (now_iso : String) : List String :=
  [now_iso, now_iso, toString lead.telegram_id, lead.email, lead.age,
   lead.gender, lead.country, lead.language, lead.english_level,
   lead.amazon_experience, lead.stage, "", "", "", ""]

theorem upsert_lead_insert_eq (rest : Sheet) (lead : LeadData) (now_iso : String)
    (hfind : (find_row_by_email (REQUIRED_HEADERS :: rest) lead.email).orElse
        (fun _ => find_row_by_telegram (REQUIRED_HEADERS :: rest) lead.telegram_id)
      = none) :
    upsert_lead (REQUIRED_HEADERS :: rest) lead now_iso =
      ((REQUIRED_HEADERS :: rest) ++ [insertRowValues lead now_iso],
       ((REQUIRED_HEADERS :: rest) ++ [insertRowValues lead now_iso]).length,
       "insert") := by
  simp only [upsert_lead, ensure_schema_canonical, wsHeaders_canonical, hfind]
  rfl

theorem applyUpdates_cons (s : Sheet) (row : Nat) (headers : List String)
    (k v : String) (tl : List (String × String)) :
    applyUpdates s row headers ((k, v) :: tl) =
      applyUpdates
        (match header_index headers k with
         | some col => setCell s row col v
         | none => s) row headers tl := rfl

theorem applyUpdates_nil (s : Sheet) (row : Nat) (headers : List String) :
    applyUpdates s row headers [] = s := rfl

theorem upsert_lead_update_eq (rest : Sheet) (lead : LeadData) (now_iso : String)
    (r : Nat)
    (hfind : (find_row_by_email (REQUIRED_HEADERS :: rest) lead.email).orElse
        (fun _ => find_row_by_telegram (REQUIRED_HEADERS :: rest) lead.telegram_id)
      = some r) :
    upsert_lead (REQUIRED_HEADERS :: rest) lead now_iso =
      (applyWrites (REQUIRED_HEADERS :: rest) r
         (upsertWrites lead
           (if pyStrip (getCell (REQUIRED_HEADERS :: rest) r 1) ≠ ""
            then pyStrip (getCell (REQUIRED_HEADERS :: rest) r 1) else now_iso)
           now_iso),
       r, "update") := by
  have hidx1 : header_index REQUIRED_HEADERS "created_at" = some 1 := rfl
  have hidx2 : header_index REQUIRED_HEADERS "updated_at" = some 2 := rfl
  have hidx3 : header_index REQUIRED_HEADERS "telegram_id" = some 3 := rfl
  have hidx4 : header_index REQUIRED_HEADERS "email" = some 4 := rfl
  have hidx5 : header_index REQUIRED_HEADERS "age" = some 5 := rfl
  have hidx6 : header_index REQUIRED_HEADERS "gender" = some 6 := rfl
  have hidx7 : header_index REQUIRED_HEADERS "country" = some 7 := rfl
  have hidx8 : header_index REQUIRED_HEADERS "language" = some 8 := rfl
  have hidx9 : header_index REQUIRED_HEADERS "english_level" = some 9 := rfl
  have hidx10 : header_index REQUIRED_HEADERS "amazon_experience" = some 10 := rfl
  have hidx11 : header_index REQUIRED_HEADERS "stage" = some 11 := rfl
  have hidx12 : header_index REQUIRED_HEADERS "last_event" = some 12 := rfl
  have hidx13 : header_index REQUIRED_HEADERS "lesson_score" = some 13 := rfl
  have hidx14 : header_index REQUIRED_HEADERS "lesson_id" = some 14 := rfl
  have hidx15 : header_index REQUIRED_HEADERS "course_id" = some 15 := rfl
  simp only [upsert_lead, ensure_schema_canonical, wsHeaders_canonical, hfind, hidx1]
  by_cases h : pyStrip (getCell (REQUIRED_HEADERS :: rest) r 1) = ""
  · rw [if_neg (not_not_intro h), if_neg (not_not_intro h)]
    simp only [values_map, setVal, applyUpdates_cons, applyUpdates_nil,
      upsertWrites, applyWrites_cons, applyWrites_nil,
      hidx1, hidx2, hidx3, hidx4, hidx5, hidx6, hidx7, hidx8, hidx9, hidx10,
      hidx11, hidx12, hidx13, hidx14, hidx15]
  · rw [if_pos h, if_pos h]
    simp [values_map, setVal, applyUpdates_cons, applyUpdates_nil,
      upsertWrites, applyWrites_cons, applyWrites_nil,
      hidx1, hidx2, hidx3, hidx4, hidx5, hidx6, hidx7, hidx8, hidx9, hidx10,
      hidx11, hidx12, hidx13, hidx14, hidx15]

theorem get_telegram_id_by_email_eq (rest : Sheet) (email : String) (r : Nat)
    (hfind : find_row_by_email (REQUIRED_HEADERS :: rest) email = some r) :
    get_telegram_id_by_email (REQUIRED_HEADERS :: rest) email =
      (REQUIRED_HEADERS :: rest,
       if pyIsDigit (pyStrip (getCell (REQUIRED_HEADERS :: rest) r 3))
       then some (pyDigitsToNat (pyStrip (getCell (REQUIRED_HEADERS :: rest) r 3)))
       else none) := by
  have hidx : header_index REQUIRED_HEADERS "telegram_id" = some 3 := rfl
  simp only [get_telegram_id_by_email, ensure_schema_canonical, wsHeaders_canonical,
    hfind, hidx]

theorem get_telegram_id_by_email_none (rest : Sheet) (email : String)
    (hfind : find_row_by_email (REQUIRED_HEADERS :: rest) email = none) :
    get_telegram_id_by_email (REQUIRED_HEADERS :: rest) email =
      (REQUIRED_HEADERS :: rest, none) := by
  simp only [get_telegram_id_by_email, ensure_schema_canonical, wsHeaders_canonical,
    hfind]

/-! ## Webhook branch lemmas -/

theorem skillspace_webhook_no_email (cfg : Config) (s : Sheet) (payload : J)
    (now : String) (hev : extract_skillspace_event payload = "test-end")
    (hem : extract_email payload = none) :
    skillspace_webhook cfg s payload now =
      (s, { ok := true, error := some "email_not_found_in_payload" }, none) := by
  simp only [skillspace_webhook, hev, hem]
  simp

theorem skillspace_webhook_blocked (cfg : Config) (s : Sheet) (payload : J)
    (now email : String) (hev : extract_skillspace_event payload = "test-end")
    (hem : extract_email payload = some email)
    (hb : courseBlocked cfg payload = true) :
    skillspace_webhook cfg s payload now =
      (s, { ok := true, ignored := true, reason := some "course_id_mismatch",
            courseId := extract_course_id payload }, none) := by
  simp only [skillspace_webhook, hev, hem, hb]
  simp

theorem skillspace_webhook_processed (cfg : Config) (s : Sheet) (payload : J)
    (now email : String) (hev : extract_skillspace_event payload = "test-end")
    (hem : extract_email payload = some email)
    (hnb : courseBlocked cfg payload = false) :
    skillspace_webhook cfg s payload now = processTestEnd cfg s payload email now := by
  simp only [skillspace_webhook, hev, hem, hnb]
  simp

/-! ## Cell values after the write sequences -/

theorem updateWrites_cell_2 (s : Sheet) (r : Nat)
    (stage now_iso event_name : String) (sc : Option ℚ)
    (lid cid : Option String) :
    getCell (applyWrites s r (updateWrites stage now_iso event_name sc lid cid))
      r 2 = now_iso := by
  simp only [updateWrites, applyWrites_cons, applyWrites_nil]
  rw [getCell_setCell_ne_col _ _ 15 _ _ 2 (by decide) (by decide) (by decide),
      getCell_setCell_ne_col _ _ 14 _ _ 2 (by decide) (by decide) (by decide),
      getCell_setCell_ne_col _ _ 13 _ _ 2 (by decide) (by decide) (by decide),
      getCell_setCell_ne_col _ _ 12 _ _ 2 (by decide) (by decide) (by decide),
      getCell_setCell_ne_col _ _ 11 _ _ 2 (by decide) (by decide) (by decide),
      getCell_setCell_same]

theorem updateWrites_cell_11 (s : Sheet) (r : Nat)
    (stage now_iso event_name : String) (sc : Option ℚ)
    (lid cid : Option String) :
    getCell (applyWrites s r (updateWrites stage now_iso event_name sc lid cid))
      r 11 = stage := by
  simp only [updateWrites, applyWrites_cons, applyWrites_nil]
  rw [getCell_setCell_ne_col _ _ 15 _ _ 11 (by decide) (by decide) (by decide),
      getCell_setCell_ne_col _ _ 14 _ _ 11 (by decide) (by decide) (by decide),
      getCell_setCell_ne_col _ _ 13 _ _ 11 (by decide) (by decide) (by decide),
      getCell_setCell_ne_col _ _ 12 _ _ 11 (by decide) (by decide) (by decide),
      getCell_setCell_same]

theorem updateWrites_cell_12 (s : Sheet) (r : Nat)
    (stage now_iso event_name : String) (sc : Option ℚ)
    (lid cid : Option String) :
    getCell (applyWrites s r (updateWrites stage now_iso event_name sc lid cid))
      r 12 = event_name := by
  simp only [updateWrites, applyWrites_cons, applyWrites_nil]
  rw [getCell_setCell_ne_col _ _ 15 _ _ 12 (by decide) (by decide) (by decide),
      getCell_setCell_ne_col _ _ 14 _ _ 12 (by decide) (by decide) (by decide),
      getCell_setCell_ne_col _ _ 13 _ _ 12 (by decide) (by decide) (by decide),
      getCell_setCell_same]

theorem updateWrites_cell_13 (s : Sheet) (r : Nat)
    (stage now_iso event_name : String) (sc : Option ℚ)
    (lid cid : Option String) :
    getCell (applyWrites s r (updateWrites stage now_iso event_name sc lid cid))
      r 13 = scoreCellStr sc := by
  simp only [updateWrites, applyWrites_cons, applyWrites_nil]
  rw [getCell_setCell_ne_col _ _ 15 _ _ 13 (by decide) (by decide) (by decide),
      getCell_setCell_ne_col _ _ 14 _ _ 13 (by decide) (by decide) (by decide),
      getCell_setCell_same]

theorem updateWrites_frame (s : Sheet) (r : Nat)
    (stage now_iso event_name : String) (sc : Option ℚ)
    (lid cid : Option String) (r' c' : Nat) (h2 : 1 ≤ c')
    (hne : c' ≠ 2 ∧ c' ≠ 11 ∧ c' ≠ 12 ∧ c' ≠ 13 ∧ c' ≠ 14 ∧ c' ≠ 15) :
    getCell (applyWrites s r (updateWrites stage now_iso event_name sc lid cid))
      r' c' = getCell s r' c' := by
  apply getCell_applyWrites_not_written _ _ _ _ _ h2
  intro cv hcv
  simp only [updateWrites, List.mem_cons, List.not_mem_nil, or_false] at hcv
  rcases hcv with rfl | rfl | rfl | rfl | rfl | rfl <;>
    (constructor <;> · dsimp only; omega)

theorem upsertWrites_cell_1 (s : Sheet) (r : Nat) (lead : LeadData)
    (created now_iso : String) :
    getCell (applyWrites s r (upsertWrites lead created now_iso)) r 1
      = created := by
  simp only [upsertWrites, applyWrites_cons, applyWrites_nil]
  rw [getCell_setCell_ne_col _ _ 15 _ _ 1 (by decide) (by decide) (by decide),
      getCell_setCell_ne_col _ _ 14 _ _ 1 (by decide) (by decide) (by decide),
      getCell_setCell_ne_col _ _ 13 _ _ 1 (by decide) (by decide) (by decide),
      getCell_setCell_ne_col _ _ 12 _ _ 1 (by decide) (by decide) (by decide),
      getCell_setCell_ne_col _ _ 11 _ _ 1 (by decide) (by decide) (by decide),
      getCell_setCell_ne_col _ _ 10 _ _ 1 (by decide) (by decide) (by decide),
      getCell_setCell_ne_col _ _ 9 _ _ 1 (by decide) (by decide) (by decide),
      getCell_setCell_ne_col _ _ 8 _ _ 1 (by decide) (by decide) (by decide),
      getCell_setCell_ne_col _ _ 7 _ _ 1 (by decide) (by decide) (by decide),
      getCell_setCell_ne_col _ _ 6 _ _ 1 (by decide) (by decide) (by decide),
      getCell_setCell_ne_col _ _ 5 _ _ 1 (by decide) (by decide) (by decide),
      getCell_setCell_ne_col _ _ 4 _ _ 1 (by decide) (by decide) (by decide),
      getCell_setCell_ne_col _ _ 3 _ _ 1 (by decide) (by decide) (by decide),
      getCell_setCell_ne_col _ _ 2 _ _ 1 (by decide) (by decide) (by decide),
      getCell_setCell_same]

theorem upsertWrites_cell_11 (s : Sheet) (r : Nat) (lead : LeadData)
    (created now_iso : String) :
    getCell (applyWrites s r (upsertWrites lead created now_iso)) r 11
      = lead.stage := by
  simp only [upsertWrites, applyWrites_cons, applyWrites_nil]
  rw [getCell_setCell_ne_col _ _ 15 _ _ 11 (by decide) (by decide) (by decide),
      getCell_setCell_ne_col _ _ 14 _ _ 11 (by decide) (by decide) (by decide),
      getCell_setCell_ne_col _ _ 13 _ _ 11 (by decide) (by decide) (by decide),
      getCell_setCell_ne_col _ _ 12 _ _ 11 (by decide) (by decide) (by decide),
      getCell_setCell_same]

theorem upsertWrites_cell_12 (s : Sheet) (r : Nat) (lead : LeadData)
    (created now_iso : String) :
    getCell (applyWrites s r (upsertWrites lead created now_iso)) r 12 = "" := by
  simp only [upsertWrites, applyWrites_cons, applyWrites_nil]
  rw [getCell_setCell_ne_col _ _ 15 _ _ 12 (by decide) (by decide) (by decide),
      getCell_setCell_ne_col _ _ 14 _ _ 12 (by decide) (by decide) (by decide),
      getCell_setCell_ne_col _ _ 13 _ _ 12 (by decide) (by decide) (by decide),
      getCell_setCell_same]

theorem upsertWrites_cell_13 (s : Sheet) (r : Nat) (lead : LeadData)
    (created now_iso : String) :
    getCell (applyWrites s r (upsertWrites lead created now_iso)) r 13 = "" := by
  simp only [upsertWrites, applyWrites_cons, applyWrites_nil]
  rw [getCell_setCell_ne_col _ _ 15 _ _ 13 (by decide) (by decide) (by decide),
      getCell_setCell_ne_col _ _ 14 _ _ 13 (by decide) (by decide) (by decide),
      getCell_setCell_same]

theorem upsertWrites_cell_14 (s : Sheet) (r : Nat) (lead : LeadData)
    (created now_iso : String) :
    getCell (applyWrites s r (upsertWrites lead created now_iso)) r 14 = "" := by
  simp only [upsertWrites, applyWrites_cons, applyWrites_nil]
  rw [getCell_setCell_ne_col _ _ 15 _ _ 14 (by decide) (by decide) (by decide),
      getCell_setCell_same]

theorem upsertWrites_cell_15 (s : Sheet) (r : Nat) (lead : LeadData)
    (created now_iso : String) :
    getCell (applyWrites s r (upsertWrites lead created now_iso)) r 15 = "" := by
  simp only [upsertWrites, applyWrites_cons, applyWrites_nil]
  rw [getCell_setCell_same]

/-! ## Preservation of the row lookup across an update -/

theorem sheet_canonical_of_head (s : Sheet) (hs : s ≠ [])
    (hh : getRow s 0 = REQUIRED_HEADERS) :
    ∃ t, s = REQUIRED_HEADERS :: t := by
  cases s with
  | nil => exact absurd rfl hs
  | cons a t =>
    have ha : a = REQUIRED_HEADERS := hh
    exact ⟨t, by rw [ha]⟩

theorem find_row_preserved (rest : Sheet) (email : String) (r : Nat)
    (ws : List (Nat × String))
    (hfind : find_row_by_email (REQUIRED_HEADERS :: rest) email = some r)
    (hcol4 : getCell (applyWrites (REQUIRED_HEADERS :: rest) r ws) r 4 = email)
    (hemail : email ≠ "") :
    find_row_by_email (applyWrites (REQUIRED_HEADERS :: rest) r ws) email
      = some r := by
  obtain ⟨hne, haux⟩ := find_row_by_email_elim _ _ _ hfind
  obtain ⟨h1r, hlen⟩ := findRowAux_bounds _ _ _ _ haux
  have hbefore := findRowAux_before _ _ _ _ haux
  have hulen : (applyWrites (REQUIRED_HEADERS :: rest) r ws).length
      = (REQUIRED_HEADERS :: rest).length :=
    length_applyWrites _ _ _ h1r (by omega)
  have hcontains :
      (getRow (applyWrites (REQUIRED_HEADERS :: rest) r ws) (r - 1)).contains email
        = true := by
    have hn : nthD "" (getRow (applyWrites (REQUIRED_HEADERS :: rest) r ws) (r - 1)) 3
        = email := hcol4
    rw [← hn]
    exact contains_of_nthD _ _ (by rw [hn]; exact hemail)
  have hpre : ∀ j, j < r - 1 →
      (getRow (applyWrites (REQUIRED_HEADERS :: rest) r ws) j).contains email
        = false := by
    intro j hj
    rw [getRow_applyWrites_ne _ _ _ _ (by omega)]
    exact hbefore j hj
  unfold find_row_by_email findCellRow
  rw [if_neg hne]
  have := findRowAux_intro (applyWrites (REQUIRED_HEADERS :: rest) r ws) email 1
    (r - 1) hpre hcontains (by omega)
  rw [this]
  congr 1
  omega

/-! ## Webhook composition helpers -/

theorem get_telegram_sheet_canonical (rest : Sheet) (email : String) :
    (get_telegram_id_by_email (REQUIRED_HEADERS :: rest) email).1
      = REQUIRED_HEADERS :: rest := by
  unfold get_telegram_id_by_email
  simp only [ensure_schema_canonical, wsHeaders_canonical]
  cases hf : find_row_by_email (REQUIRED_HEADERS :: rest) email with
  | none => rfl
  | some r =>
    have hidx : header_index REQUIRED_HEADERS "telegram_id" = some 3 := rfl
    simp only [hidx]

theorem processTestEnd_sheet (cfg : Config) (rest : Sheet) (payload : J)
    (email now : String) (r : Nat)
    (hfind : find_row_by_email (REQUIRED_HEADERS :: rest) email = some r)
    (hr2 : 2 ≤ r) :
    (processTestEnd cfg (REQUIRED_HEADERS :: rest) payload email now).1 =
      applyWrites (REQUIRED_HEADERS :: rest) r
        (updateWrites
          (classifyStage (extract_lesson_score payload) cfg.passThr cfg.greatThr)
          now "test-end" (extract_lesson_score payload)
          (extract_lesson_id payload) (extract_course_id payload)) := by
  obtain ⟨hne, haux⟩ := find_row_by_email_elim _ _ _ hfind
  obtain ⟨h1r, hlen⟩ := findRowAux_bounds _ _ _ _ haux
  simp only [processTestEnd,
    update_from_skillspace_eq rest email _ now "test-end" _ _ _ r hfind]
  set u := applyWrites (REQUIRED_HEADERS :: rest) r
    (updateWrites
      (classifyStage (extract_lesson_score payload) cfg.passThr cfg.greatThr)
      now "test-end" (extract_lesson_score payload)
      (extract_lesson_id payload) (extract_course_id payload)) with hu
  have hunil : u ≠ [] := by
    have := length_applyWrites
      (updateWrites
        (classifyStage (extract_lesson_score payload) cfg.passThr cfg.greatThr)
        now "test-end" (extract_lesson_score payload)
        (extract_lesson_id payload) (extract_course_id payload))
      (REQUIRED_HEADERS :: rest) r h1r (by omega)
    rw [← hu] at this
    intro hnil
    rw [hnil] at this
    simp at this
  have hhead : getRow u 0 = REQUIRED_HEADERS := by
    rw [hu]
    rw [getRow_applyWrites_ne _ _ _ _ (by omega)]
    rfl
  obtain ⟨t, ht⟩ := sheet_canonical_of_head u hunil hhead
  rw [ht, get_telegram_sheet_canonical, ← ht]

/-! ## Claims -/

/-- C2: when the raw lesson-score value parses as a number `s`, the
normalizer returns `100 * s` exactly when `0.0 <= s <= 1.0` and `s != 1.0`,
and `s` unchanged otherwise; in particular raw `0.8` normalizes to `80`,
raw `1.0` to `1.0` (not `100`), and raw `95` to `95`. -/
theorem c2_score_normalization :
    (∀ (payload : J) (s : ℚ), rawLessonScore payload = some s →
      extract_lesson_score payload =
        some (if 0 ≤ s ∧ s ≤ 1 ∧ s ≠ 1 then 100 * s else s)) ∧
    extract_lesson_score
      (J.obj [("lesson", J.obj [("score", J.num (mkRat 4 5))])]) = some 80 ∧
    extract_lesson_score
      (J.obj [("lesson", J.obj [("score", J.num 1)])]) = some 1 ∧
    extract_lesson_score
      (J.obj [("lesson", J.obj [("score", J.num 95)])]) = some 95 := by
  refine ⟨?_, ?_, by decide, by decide⟩
  · intro payload s h
    unfold rawLessonScore at h
    unfold extract_lesson_score
    cases hv : rawLessonScoreVal payload with
    | none => rw [hv] at h; simp at h
    | some v =>
      rw [hv] at h
      simp only [Option.some_bind] at h
      simp only [hv, h]
      rw [mul_comm]
  · have h1 : rawLessonScoreVal
        (J.obj [("lesson", J.obj [("score", J.num (mkRat 4 5))])])
        = some (J.num (mkRat 4 5)) := rfl
    simp only [extract_lesson_score, h1, J.toNum]
    rw [if_pos (by refine ⟨by decide, by decide, by decide⟩)]
    rw [Rat.mkRat_eq_div]
    norm_num

/-- C2 witness: the general normalization law applied to the concrete raw
score `95`. -/
theorem c2_score_normalization_witness :
    extract_lesson_score (J.obj [("lesson", J.obj [("score", J.num 95)])]) =
      some (if 0 ≤ (95 : ℚ) ∧ (95 : ℚ) ≤ 1 ∧ (95 : ℚ) ≠ 1
            then 100 * 95 else 95) :=
  c2_score_normalization.1
    (J.obj [("lesson", J.obj [("score", J.num 95)])]) 95 (by decide)

/-- C3: with thresholds `p ≤ g`, the webhook's classification yields
`TEST_GREAT` exactly when `s ≥ g`, `TEST_PASSED` exactly when `p ≤ s < g`,
and `TEST_FAILED` exactly when `s < p`; lower boundaries are inclusive,
and `classify(50,50,80) = PASSED`, `classify(49.999,50,80) = FAILED`,
`classify(80,50,80) = GREAT`. -/
theorem c3_classification_bands (p g s : ℚ) (hpg : p ≤ g) :
    (classifyStage (some s) p g = "TEST_GREAT" ↔ g ≤ s) ∧
    (classifyStage (some s) p g = "TEST_PASSED" ↔ p ≤ s ∧ s < g) ∧
    (classifyStage (some s) p g = "TEST_FAILED" ↔ s < p) ∧
    classifyStage (some 50) 50 80 = "TEST_PASSED" ∧
    classifyStage (some (mkRat 49999 1000)) 50 80 = "TEST_FAILED" ∧
    classifyStage (some 80) 50 80 = "TEST_GREAT" := by
  have hcl : classifyStage (some s) p g =
      (if g ≤ s then "TEST_GREAT"
       else if p ≤ s then "TEST_PASSED" else "TEST_FAILED") := rfl
  refine ⟨?_, ?_, ?_, by decide, by decide, by decide⟩
  · rw [hcl]
    split_ifs with h1 h2
    · simp [h1]
    · simp [h1]
    · simp [h1]
  · rw [hcl]
    split_ifs with h1 h2
    · constructor
      · intro hh; exact absurd hh (by decide)
      · rintro ⟨_, hlt⟩; exact absurd h1 (not_le.mpr hlt)
    · simp [h2, not_le.mp h1]
    · simp [h2]
  · rw [hcl]
    split_ifs with h1 h2
    · simp [not_lt.mpr (le_trans hpg h1)]
    · simp [not_lt.mpr h2]
    · simp [not_le.mp h2]

/-- C3 witness: the band characterization applied at score `60` with the
default thresholds `50 ≤ 80`. -/
theorem c3_classification_bands_witness :
    (classifyStage (some 60) 50 80 = "TEST_GREAT" ↔ (80 : ℚ) ≤ 60) ∧
    (classifyStage (some 60) 50 80 = "TEST_PASSED" ↔
      (50 : ℚ) ≤ 60 ∧ (60 : ℚ) < 80) ∧
    (classifyStage (some 60) 50 80 = "TEST_FAILED" ↔ (60 : ℚ) < 50) ∧
    classifyStage (some 50) 50 80 = "TEST_PASSED" ∧
    classifyStage (some (mkRat 49999 1000)) 50 80 = "TEST_FAILED" ∧
    classifyStage (some 80) 50 80 = "TEST_GREAT" :=
  c3_classification_bands 50 80 60 (by norm_num)

/-- C5: a `test-end` event with no extractable email, or whose email matches
no row of a canonical sheet, leaves the store completely unchanged, is still
acknowledged (`ok = true`), carries the explicit `email_not_found_in_payload`
indicator in the missing-email case, and triggers no notification. -/
theorem c5_unmatched_event_leaves_store :
    (∀ (cfg : Config) (s : Sheet) (payload : J) (now : String),
      extract_skillspace_event payload = "test-end" →
      extract_email payload = none →
      (skillspace_webhook cfg s payload now).1 = s ∧
      (skillspace_webhook cfg s payload now).2.1.ok = true ∧
      (skillspace_webhook cfg s payload now).2.1.error
        = some "email_not_found_in_payload" ∧
      (skillspace_webhook cfg s payload now).2.2 = none) ∧
    (∀ (cfg : Config) (rest : Sheet) (payload : J) (now email : String),
      extract_skillspace_event payload = "test-end" →
      extract_email payload = some email →
      find_row_by_email (REQUIRED_HEADERS :: rest) email = none →
      (skillspace_webhook cfg (REQUIRED_HEADERS :: rest) payload now).1
        = REQUIRED_HEADERS :: rest ∧
      (skillspace_webhook cfg (REQUIRED_HEADERS :: rest) payload now).2.1.ok
        = true ∧
      (skillspace_webhook cfg (REQUIRED_HEADERS :: rest) payload now).2.2
        = none) := by
  constructor
  · intro cfg s payload now hev hem
    rw [skillspace_webhook_no_email cfg s payload now hev hem]
    exact ⟨rfl, rfl, rfl, rfl⟩
  · intro cfg rest payload now email hev hem hfind
    by_cases hb : courseBlocked cfg payload = true
    · rw [skillspace_webhook_blocked cfg _ payload now email hev hem hb]
      exact ⟨rfl, rfl, rfl⟩
    · rw [skillspace_webhook_processed cfg _ payload now email hev hem
        (Bool.eq_false_iff.mpr hb)]
      simp only [processTestEnd,
        update_from_skillspace_none rest email _ now "test-end" _ _ _ hfind,
        get_telegram_id_by_email_none rest email hfind]
      refine ⟨?_, ?_, ?_⟩ <;> trivial

/-- C5 witness: the unmatched-event guarantees at a concrete payload with no
email, and at a concrete payload whose email matches no row. -/
theorem c5_unmatched_event_leaves_store_witness :
    ((skillspace_webhook {} [REQUIRED_HEADERS]
        (J.obj [("event", J.str "test-end")]) "t").1 = [REQUIRED_HEADERS] ∧
     (skillspace_webhook {} [REQUIRED_HEADERS]
        (J.obj [("event", J.str "test-end")]) "t").2.1.ok = true ∧
     (skillspace_webhook {} [REQUIRED_HEADERS]
        (J.obj [("event", J.str "test-end")]) "t").2.1.error
       = some "email_not_found_in_payload" ∧
     (skillspace_webhook {} [REQUIRED_HEADERS]
        (J.obj [("event", J.str "test-end")]) "t").2.2 = none) ∧
    ((skillspace_webhook {} (REQUIRED_HEADERS :: [])
        (J.obj [("event", J.str "test-end"), ("email", J.str "ghost@x.com")])
        "t").1 = REQUIRED_HEADERS :: [] ∧
     (skillspace_webhook {} (REQUIRED_HEADERS :: [])
        (J.obj [("event", J.str "test-end"), ("email", J.str "ghost@x.com")])
        "t").2.1.ok = true ∧
     (skillspace_webhook {} (REQUIRED_HEADERS :: [])
        (J.obj [("event", J.str "test-end"), ("email", J.str "ghost@x.com")])
        "t").2.2 = none) :=
  ⟨c5_unmatched_event_leaves_store.1 {} [REQUIRED_HEADERS]
     (J.obj [("event", J.str "test-end")]) "t" (by decide) (by decide),
   c5_unmatched_event_leaves_store.2 {} []
     (J.obj [("event", J.str "test-end"), ("email", J.str "ghost@x.com")])
     "t" "ghost@x.com" (by decide) (by decide) (by decide)⟩

/-- Stage cell written by `upsert_lead` on a canonical sheet: the returned
row's `stage` column holds the lead's stage, in both branches. -/
theorem upsert_lead_stage_cell (rest : Sheet) (lead : LeadData)
    (now_iso : String) :
    getCell (upsert_lead (REQUIRED_HEADERS :: rest) lead now_iso).1
      (upsert_lead (REQUIRED_HEADERS :: rest) lead now_iso).2.1 11
      = lead.stage := by
  cases hfind : (find_row_by_email (REQUIRED_HEADERS :: rest) lead.email).orElse
      (fun _ => find_row_by_telegram (REQUIRED_HEADERS :: rest) lead.telegram_id)
    with
  | none =>
    rw [upsert_lead_insert_eq rest lead now_iso hfind]
    show getCell ((REQUIRED_HEADERS :: rest) ++ [insertRowValues lead now_iso])
      ((REQUIRED_HEADERS :: rest) ++ [insertRowValues lead now_iso]).length 11
      = lead.stage
    unfold getCell
    have hl : ((REQUIRED_HEADERS :: rest) ++ [insertRowValues lead now_iso]).length - 1
        = (REQUIRED_HEADERS :: rest).length := by
      rw [List.length_append]
      simp
    rw [hl, getRow_append_self]
    rfl
  | some r =>
    rw [upsert_lead_update_eq rest lead now_iso r hfind]
    dsimp only
    exact upsertWrites_cell_11 _ _ _ _ _

/-- C7 counterexample: status `204` is a 2xx status, yet the enrollment call
raises an error rather than succeeding (`invite_student` accepts only `200`). -/
theorem c7_counterexample_2xx_is_error :
    (200 ≤ 204 ∧ 204 < 300) ∧
    invite_student { status := 204, text := "No Content" } ≠ InviteResult.ok ∧
    invite_student { status := 204, text := "No Content" } =
      InviteResult.error "Invite failed: 204 | No Content" := by
  refine ⟨⟨by norm_num, by norm_num⟩, by decide, by decide⟩

/-- C7 amended: the enrollment call succeeds exactly when the HTTP status is
`200` (not any 2xx); every other status yields an error carrying the status
and the response body, and on such a failure the intake flow keeps the lead's
stage at `PROFILE_COLLECTED`. -/
theorem c7_amended_success_iff_200 :
    (∀ r : HttpResponse, invite_student r = InviteResult.ok ↔ r.status = 200) ∧
    (∀ r : HttpResponse, r.status ≠ 200 →
      invite_student r = InviteResult.error
        ("Invite failed: " ++ toString r.status ++ " | " ++ r.text)) ∧
    (∀ (env : InviteEnv) (resp : HttpResponse) (rest : Sheet)
       (profile : LeadProfile) (now : String),
      invite_student resp ≠ InviteResult.ok →
      on_lead_completed_sheet env resp (REQUIRED_HEADERS :: rest) profile now =
        (upsert_lead (REQUIRED_HEADERS :: rest)
          (leadOf profile "PROFILE_COLLECTED") now).1 ∧
      getCell
        (on_lead_completed_sheet env resp (REQUIRED_HEADERS :: rest) profile now)
        (upsert_lead (REQUIRED_HEADERS :: rest)
          (leadOf profile "PROFILE_COLLECTED") now).2.1 11
        = "PROFILE_COLLECTED") := by
  refine ⟨?_, ?_, ?_⟩
  · intro r
    unfold invite_student
    by_cases h : r.status = 200
    · simp [h]
    · simp [h]
  · intro r h
    unfold invite_student
    rw [if_neg h]
  · intro env resp rest profile now hfail
    have hsheet : on_lead_completed_sheet env resp (REQUIRED_HEADERS :: rest)
        profile now =
        (upsert_lead (REQUIRED_HEADERS :: rest)
          (leadOf profile "PROFILE_COLLECTED") now).1 := by
      unfold on_lead_completed_sheet
      by_cases hc : env.expectedCourseId ≠ "" ∧ env.apiKey ≠ ""
      · rw [if_pos hc]
        cases hi : invite_student resp with
        | ok => exact absurd hi hfail
        | error m => simp only
      · rw [if_neg hc]
    refine ⟨hsheet, ?_⟩
    rw [hsheet]
    have := upsert_lead_stage_cell rest (leadOf profile "PROFILE_COLLECTED") now
    simpa [leadOf] using this

/-- C7 witness: the amended enrollment contract applied at the concrete
failing response `500` and a configured environment. -/
theorem c7_amended_success_iff_200_witness :
    (invite_student { status := 500, text := "oops" } = InviteResult.ok ↔
      (500 : Nat) = 200) ∧
    invite_student { status := 500, text := "oops" } =
      InviteResult.error ("Invite failed: " ++ toString (500 : Nat) ++ " | " ++ "oops") ∧
    (on_lead_completed_sheet { expectedCourseId := "C1", apiKey := "K" }
        { status := 500, text := "oops" } (REQUIRED_HEADERS :: [])
        { telegram_id := 7, email := "a@x.com" } "t" =
      (upsert_lead (REQUIRED_HEADERS :: [])
        (leadOf { telegram_id := 7, email := "a@x.com" } "PROFILE_COLLECTED")
        "t").1 ∧
     getCell
       (on_lead_completed_sheet { expectedCourseId := "C1", apiKey := "K" }
         { status := 500, text := "oops" } (REQUIRED_HEADERS :: [])
         { telegram_id := 7, email := "a@x.com" } "t")
       (upsert_lead (REQUIRED_HEADERS :: [])
         (leadOf { telegram_id := 7, email := "a@x.com" } "PROFILE_COLLECTED")
         "t").2.1 11 = "PROFILE_COLLECTED") :=
  ⟨c7_amended_success_iff_200.1 { status := 500, text := "oops" },
   c7_amended_success_iff_200.2.1 { status := 500, text := "oops" } (by decide),
   c7_amended_success_iff_200.2.2 { expectedCourseId := "C1", apiKey := "K" }
     { status := 500, text := "oops" } []
     { telegram_id := 7, email := "a@x.com" } "t" (by decide)⟩

/-- Store used for C9: row 2 carries age `"42"`, row 3 carries telegram id
`"42"`, and row 4 carries the string `"x@y.z"` in its `lesson_score` column
while no row has it as an email. -/
def c9Sheet : Sheet :=
  [REQUIRED_HEADERS,
   ["2024-01-01", "t0", "99", "b@y.com", "42", "f", "US", "EN", "B2", "no",
    "INVITED_TO_COURSE", "", "", "", ""],
   ["2024-01-02", "t0", "42", "c@z.com", "33", "m", "DE", "EN", "B1", "no",
    "PROFILE_COLLECTED", "", "", "", ""],
   ["2024-01-03", "t0", "77", "d@w.com", "21", "m", "FR", "EN", "A2", "no",
    "PROFILE_COLLECTED", "", "x@y.z", "", ""]]

/-- C9: the row lookups match a cell anywhere in the sheet: searching
telegram id `42` resolves row 2 (whose telegram id is `"99"`) through its
age column, searching email `"x@y.z"` resolves row 4 (whose email is
`"d@w.com"`) through its lesson_score column, and the upsert then updates
the mismatched row, overwriting its email. -/
theorem c9_find_matches_any_column :
    find_row_by_telegram c9Sheet 42 = some 2 ∧
    getCell c9Sheet 2 3 = "99" ∧
    getCell c9Sheet 2 5 = "42" ∧
    getCell c9Sheet 3 3 = "42" ∧
    find_row_by_email c9Sheet "x@y.z" = some 4 ∧
    getCell c9Sheet 4 4 = "d@w.com" ∧
    getCell c9Sheet 4 13 = "x@y.z" ∧
    (upsert_lead c9Sheet { telegram_id := 42, email := "new@q.com" } "t9").2.1
      = 2 ∧
    getCell
      (upsert_lead c9Sheet { telegram_id := 42, email := "new@q.com" } "t9").1
      2 4 = "new@q.com" := by
  refine ⟨by decide, by decide, by decide, by decide, by decide, by decide,
    by decide, by decide, by decide⟩

/-- Store used for C10: the matched row's telegram_id cell is `" 5 "` —
non-empty but not an all-digit string because of the padding. -/
def c10Sheet : Sheet :=
  [REQUIRED_HEADERS,
   ["2024-01-01", "t0", " 5 ", "a@x.com", "30", "m", "US", "EN", "B2", "no",
    "PROFILE_COLLECTED", "", "", "", ""]]

/-- C10 counterexample: the stored telegram_id cell `" 5 "` does not consist
solely of decimal digits, yet `get_telegram_id_by_email` returns the id `5`
(the code strips the value before the digit test), refuting the claim's
"only when the cell holds a non-empty string consisting solely of decimal
digits". -/
theorem c10_counterexample_padded_cell :
    (get_telegram_id_by_email c10Sheet "a@x.com").2 = some 5 ∧
    getCell c10Sheet 2 3 = " 5 " ∧
    pyIsDigit " 5 " = false ∧
    (" 5 " : String) ≠ "" := by
  refine ⟨by decide, by decide, by decide, by decide⟩

/-- C10 amended: `get_telegram_id_by_email` returns an id exactly when the
matched row exists and its telegram_id cell, after stripping surrounding
whitespace, is a non-empty string of decimal digits; otherwise (no matching
row, or an empty / non-numeric / negative value such as `"-5"`) it returns
`none`, and the webhook's notification step is then skipped. -/
theorem c10_amended_telegram_id_parsing :
    (∀ (rest : Sheet) (email : String) (r : Nat),
      find_row_by_email (REQUIRED_HEADERS :: rest) email = some r →
      (get_telegram_id_by_email (REQUIRED_HEADERS :: rest) email).2 =
        (if pyIsDigit (pyStrip (getCell (REQUIRED_HEADERS :: rest) r 3))
         then some (pyDigitsToNat (pyStrip (getCell (REQUIRED_HEADERS :: rest) r 3)))
         else none)) ∧
    (∀ (rest : Sheet) (email : String),
      find_row_by_email (REQUIRED_HEADERS :: rest) email = none →
      (get_telegram_id_by_email (REQUIRED_HEADERS :: rest) email).2 = none) ∧
    (∀ v : String, pyIsDigit v = true ↔
      v ≠ "" ∧ v.data.all Char.isDigit = true) ∧
    pyIsDigit (pyStrip "") = false ∧
    pyIsDigit (pyStrip "abc") = false ∧
    pyIsDigit (pyStrip "-5") = false ∧
    (∀ (cfg : Config) (s : Sheet) (payload : J) (email now : String),
      (get_telegram_id_by_email
        (update_from_skillspace s email
          (classifyStage (extract_lesson_score payload) cfg.passThr cfg.greatThr)
          now "test-end" (extract_lesson_score payload)
          (extract_lesson_id payload) (extract_course_id payload)).1 email).2
        = none →
      (processTestEnd cfg s payload email now).2.2 = none) := by
  refine ⟨?_, ?_, ?_, by decide, by decide, by decide, ?_⟩
  · intro rest email r hfind
    rw [get_telegram_id_by_email_eq rest email r hfind]
  · intro rest email hfind
    rw [get_telegram_id_by_email_none rest email hfind]
  · intro v
    unfold pyIsDigit
    rw [Bool.and_eq_true, Bool.not_eq_true']
    constructor
    · rintro ⟨h1, h2⟩
      refine ⟨?_, h2⟩
      intro hv
      rw [hv] at h1
      simp at h1
    · rintro ⟨h1, h2⟩
      refine ⟨?_, h2⟩
      cases hv : v.data.isEmpty
      · rfl
      · exact absurd (by cases v; simp_all [List.isEmpty_iff]) h1
  · intro cfg s payload email now h
    simp only [processTestEnd, h]

/-- C10 witness: the amended characterization applied at the concrete padded
store, at a store with no matching row, at the string `"17"`, and at a
concrete processed event whose telegram lookup fails. -/
theorem c10_amended_telegram_id_parsing_witness :
    ((get_telegram_id_by_email
        (REQUIRED_HEADERS ::
          [["2024-01-01", "t0", " 5 ", "a@x.com", "30", "m", "US", "EN", "B2",
            "no", "PROFILE_COLLECTED", "", "", "", ""]]) "a@x.com").2 =
      (if pyIsDigit (pyStrip (getCell
            (REQUIRED_HEADERS ::
              [["2024-01-01", "t0", " 5 ", "a@x.com", "30", "m", "US", "EN",
                "B2", "no", "PROFILE_COLLECTED", "", "", "", ""]]) 2 3))
       then some (pyDigitsToNat (pyStrip (getCell
            (REQUIRED_HEADERS ::
              [["2024-01-01", "t0", " 5 ", "a@x.com", "30", "m", "US", "EN",
                "B2", "no", "PROFILE_COLLECTED", "", "", "", ""]]) 2 3)))
       else none)) ∧
    (get_telegram_id_by_email (REQUIRED_HEADERS :: []) "zz@q.com").2 = none ∧
    (pyIsDigit "17" = true ↔
      ("17" : String) ≠ "" ∧ ("17" : String).data.all Char.isDigit = true) ∧
    (processTestEnd {} [REQUIRED_HEADERS]
      (J.obj [("event", J.str "test-end")]) "ghost@x.com" "t").2.2 = none :=
  ⟨c10_amended_telegram_id_parsing.1
     [["2024-01-01", "t0", " 5 ", "a@x.com", "30", "m", "US", "EN", "B2",
       "no", "PROFILE_COLLECTED", "", "", "", ""]] "a@x.com" 2 (by decide),
   c10_amended_telegram_id_parsing.2.1 [] "zz@q.com" (by decide),
   c10_amended_telegram_id_parsing.2.2.1 "17",
   c10_amended_telegram_id_parsing.2.2.2.2.2.2 {} [REQUIRED_HEADERS]
     (J.obj [("event", J.str "test-end")]) "ghost@x.com" "t" (by decide)⟩

/-- Store and payload used for C1: the lead is at `INVITED_TO_COURSE` and the
`test-end` payload carries no lesson score. -/
def c1Sheet : Sheet :=
  [REQUIRED_HEADERS,
   ["2024-01-01", "t0", "7", "a@x.com", "30", "m", "US", "EN", "B2", "no",
    "INVITED_TO_COURSE", "", "", "", ""]]

/-- Payload used for C1: a `test-end` event with an email but no score. -/
def c1Payload : J :=
  J.obj [("event", J.str "test-end"),
         ("user", J.obj [("email", J.str "a@x.com")])]

/-- C1 counterexample: a `test-end` event with no extractable score changes
the lead's stage — the webhook writes `TEST_FAILED` over the previous stage
`INVITED_TO_COURSE` — refuting "does not change the lead record's stage". -/
theorem c1_counterexample_stage_overwritten :
    extract_skillspace_event c1Payload = "test-end" ∧
    extract_email c1Payload = some "a@x.com" ∧
    extract_lesson_score c1Payload = none ∧
    getCell c1Sheet 2 11 = "INVITED_TO_COURSE" ∧
    getCell (skillspace_webhook {} c1Sheet c1Payload "t2").1 2 11
      = "TEST_FAILED" ∧
    ("TEST_FAILED" : String) ≠ "INVITED_TO_COURSE" := by
  refine ⟨by decide, by decide, by decide, by decide, by decide, by decide⟩

/-- C1 amended: a `test-end` event whose payload yields no extractable score
sets the matched record's stage to `TEST_FAILED` (an absent score is
classified as failed), and records the event name and the update timestamp. -/
theorem c1_amended_no_score_sets_failed (cfg : Config) (rest : Sheet)
    (payload : J) (now email : String) (r : Nat)
    (hev : extract_skillspace_event payload = "test-end")
    (hem : extract_email payload = some email)
    (hsc : extract_lesson_score payload = none)
    (hnb : courseBlocked cfg payload = false)
    (hfind : find_row_by_email (REQUIRED_HEADERS :: rest) email = some r)
    (hr2 : 2 ≤ r) :
    getCell (skillspace_webhook cfg (REQUIRED_HEADERS :: rest) payload now).1
      r 11 = "TEST_FAILED" ∧
    getCell (skillspace_webhook cfg (REQUIRED_HEADERS :: rest) payload now).1
      r 12 = "test-end" ∧
    getCell (skillspace_webhook cfg (REQUIRED_HEADERS :: rest) payload now).1
      r 2 = now := by
  rw [skillspace_webhook_processed cfg _ payload now email hev hem hnb,
    processTestEnd_sheet cfg rest payload email now r hfind hr2, hsc]
  refine ⟨?_, ?_, ?_⟩
  · rw [updateWrites_cell_11]
    rfl
  · rw [updateWrites_cell_12]
  · rw [updateWrites_cell_2]

/-- C1 witness: the amended behaviour at the concrete score-less event. -/
theorem c1_amended_no_score_sets_failed_witness :
    getCell (skillspace_webhook {}
      (REQUIRED_HEADERS ::
        [["2024-01-01", "t0", "7", "a@x.com", "30", "m", "US", "EN", "B2",
          "no", "INVITED_TO_COURSE", "", "", "", ""]]) c1Payload "t2").1
      2 11 = "TEST_FAILED" ∧
    getCell (skillspace_webhook {}
      (REQUIRED_HEADERS ::
        [["2024-01-01", "t0", "7", "a@x.com", "30", "m", "US", "EN", "B2",
          "no", "INVITED_TO_COURSE", "", "", "", ""]]) c1Payload "t2").1
      2 12 = "test-end" ∧
    getCell (skillspace_webhook {}
      (REQUIRED_HEADERS ::
        [["2024-01-01", "t0", "7", "a@x.com", "30", "m", "US", "EN", "B2",
          "no", "INVITED_TO_COURSE", "", "", "", ""]]) c1Payload "t2").1
      2 2 = "t2" :=
  c1_amended_no_score_sets_failed {}
    [["2024-01-01", "t0", "7", "a@x.com", "30", "m", "US", "EN", "B2", "no",
      "INVITED_TO_COURSE", "", "", "", ""]]
    c1Payload "t2" "a@x.com" 2 (by decide) (by decide) (by decide) (by decide)
    (by decide) (by decide)

/-- Store used for C4 and C8. -/
def c4Sheet : Sheet :=
  [REQUIRED_HEADERS,
   ["2024-01-01", "t0", "7", "a@x.com", "30", "m", "US", "EN", "B2", "no",
    "TEST_GREAT", "test-end", "92.0", "L1", "C1"]]

/-- C4 counterexample: an intake re-submission (`upsert_lead`) for a lead
that already has a recorded test result overwrites `last_event`,
`lesson_score`, `lesson_id` and `course_id` with empty strings, refuting
"only the fields supplied by the operation are written". -/
theorem c4_counterexample_upsert_clobbers_history :
    getCell c4Sheet 2 12 = "test-end" ∧
    getCell c4Sheet 2 13 = "92.0" ∧
    getCell c4Sheet 2 14 = "L1" ∧
    getCell c4Sheet 2 15 = "C1" ∧
    (upsert_lead c4Sheet
      { telegram_id := 7, email := "a@x.com", age := "31",
        stage := "PROFILE_COLLECTED" } "t5").2.2 = "update" ∧
    getCell (upsert_lead c4Sheet
      { telegram_id := 7, email := "a@x.com", age := "31",
        stage := "PROFILE_COLLECTED" } "t5").1 2 12 = "" ∧
    getCell (upsert_lead c4Sheet
      { telegram_id := 7, email := "a@x.com", age := "31",
        stage := "PROFILE_COLLECTED" } "t5").1 2 13 = "" ∧
    getCell (upsert_lead c4Sheet
      { telegram_id := 7, email := "a@x.com", age := "31",
        stage := "PROFILE_COLLECTED" } "t5").1 2 14 = "" ∧
    getCell (upsert_lead c4Sheet
      { telegram_id := 7, email := "a@x.com", age := "31",
        stage := "PROFILE_COLLECTED" } "t5").1 2 15 = "" := by
  refine ⟨by decide, by decide, by decide, by decide, by decide, by decide,
    by decide, by decide, by decide⟩

/-- C4 amended: `upsert_lead` on an existing record writes the full canonical
field set, clearing `last_event`, `lesson_score`, `lesson_id` and `course_id`
to empty strings; the webhook update `update_from_skillspace`, by contrast,
writes only its six supplied fields and leaves every other cell (other rows,
and the columns `created_at`, `telegram_id`, `email` and the profile fields
of the matched row) untouched. -/
theorem c4_amended_upsert_clears_update_frames :
    (∀ (rest : Sheet) (lead : LeadData) (now_iso : String) (r : Nat),
      (find_row_by_email (REQUIRED_HEADERS :: rest) lead.email).orElse
          (fun _ => find_row_by_telegram (REQUIRED_HEADERS :: rest)
            lead.telegram_id) = some r →
      getCell (upsert_lead (REQUIRED_HEADERS :: rest) lead now_iso).1 r 12
          = "" ∧
      getCell (upsert_lead (REQUIRED_HEADERS :: rest) lead now_iso).1 r 13
          = "" ∧
      getCell (upsert_lead (REQUIRED_HEADERS :: rest) lead now_iso).1 r 14
          = "" ∧
      getCell (upsert_lead (REQUIRED_HEADERS :: rest) lead now_iso).1 r 15
          = "") ∧
    (∀ (rest : Sheet) (email stage now_iso event_name : String)
       (sc : Option ℚ) (lid cid : Option String) (r r' c' : Nat),
      find_row_by_email (REQUIRED_HEADERS :: rest) email = some r →
      ((1 ≤ r' ∧ r' ≠ r) ∨
        (1 ≤ c' ∧ c' ≠ 2 ∧ c' ≠ 11 ∧ c' ≠ 12 ∧ c' ≠ 13 ∧ c' ≠ 14 ∧ c' ≠ 15)) →
      getCell (update_from_skillspace (REQUIRED_HEADERS :: rest) email stage
          now_iso event_name sc lid cid).1 r' c'
        = getCell (REQUIRED_HEADERS :: rest) r' c') := by
  constructor
  · intro rest lead now_iso r hfind
    rw [upsert_lead_update_eq rest lead now_iso r hfind]
    dsimp only
    exact ⟨upsertWrites_cell_12 _ _ _ _ _, upsertWrites_cell_13 _ _ _ _ _,
      upsertWrites_cell_14 _ _ _ _ _, upsertWrites_cell_15 _ _ _ _ _⟩
  · intro rest email stage now_iso event_name sc lid cid r r' c' hfind hcase
    obtain ⟨hne, haux⟩ := find_row_by_email_elim _ _ _ hfind
    obtain ⟨h1r, hlen⟩ := findRowAux_bounds _ _ _ _ haux
    rw [update_from_skillspace_eq rest email stage now_iso event_name sc lid
      cid r hfind]
    dsimp only
    rcases hcase with ⟨h1, h2⟩ | ⟨h1, h2, h3, h4, h5, h6, h7⟩
    · exact getCell_applyWrites_other_row _ _ _ _ _ h1r h1 h2
    · exact updateWrites_frame _ _ _ _ _ _ _ _ _ _ h1 ⟨h2, h3, h4, h5, h6, h7⟩

/-- C4 witness: the amended write/frame behaviour at a concrete store —
the clearing part at `c4Sheet`-like data, and the webhook-update frame at
the cell `(2,4)` (the email column, untouched). -/
theorem c4_amended_upsert_clears_update_frames_witness :
    (getCell (upsert_lead (REQUIRED_HEADERS ::
        [["2024-01-01", "t0", "7", "a@x.com", "30", "m", "US", "EN", "B2",
          "no", "TEST_GREAT", "test-end", "92.0", "L1", "C1"]])
        { telegram_id := 7, email := "a@x.com", age := "31",
          stage := "PROFILE_COLLECTED" } "t5").1 2 12 = "" ∧
     getCell (upsert_lead (REQUIRED_HEADERS ::
        [["2024-01-01", "t0", "7", "a@x.com", "30", "m", "US", "EN", "B2",
          "no", "TEST_GREAT", "test-end", "92.0", "L1", "C1"]])
        { telegram_id := 7, email := "a@x.com", age := "31",
          stage := "PROFILE_COLLECTED" } "t5").1 2 13 = "" ∧
     getCell (upsert_lead (REQUIRED_HEADERS ::
        [["2024-01-01", "t0", "7", "a@x.com", "30", "m", "US", "EN", "B2",
          "no", "TEST_GREAT", "test-end", "92.0", "L1", "C1"]])
        { telegram_id := 7, email := "a@x.com", age := "31",
          stage := "PROFILE_COLLECTED" } "t5").1 2 14 = "" ∧
     getCell (upsert_lead (REQUIRED_HEADERS ::
        [["2024-01-01", "t0", "7", "a@x.com", "30", "m", "US", "EN", "B2",
          "no", "TEST_GREAT", "test-end", "92.0", "L1", "C1"]])
        { telegram_id := 7, email := "a@x.com", age := "31",
          stage := "PROFILE_COLLECTED" } "t5").1 2 15 = "") ∧
    getCell (update_from_skillspace (REQUIRED_HEADERS ::
        [["2024-01-01", "t0", "7", "a@x.com", "30", "m", "US", "EN", "B2",
          "no", "INVITED_TO_COURSE", "", "", "", ""]])
        "a@x.com" "TEST_GREAT" "t6" "test-end" (some 92) (some "L1")
        (some "C1")).1 2 4
      = getCell (REQUIRED_HEADERS ::
        [["2024-01-01", "t0", "7", "a@x.com", "30", "m", "US", "EN", "B2",
          "no", "INVITED_TO_COURSE", "", "", "", ""]]) 2 4 :=
  ⟨c4_amended_upsert_clears_update_frames.1
     [["2024-01-01", "t0", "7", "a@x.com", "30", "m", "US", "EN", "B2", "no",
       "TEST_GREAT", "test-end", "92.0", "L1", "C1"]]
     { telegram_id := 7, email := "a@x.com", age := "31",
       stage := "PROFILE_COLLECTED" } "t5" 2 (by decide),
   c4_amended_upsert_clears_update_frames.2
     [["2024-01-01", "t0", "7", "a@x.com", "30", "m", "US", "EN", "B2", "no",
       "INVITED_TO_COURSE", "", "", "", ""]]
     "a@x.com" "TEST_GREAT" "t6" "test-end" (some 92) (some "L1") (some "C1")
     2 2 4 (by decide)
     (Or.inr ⟨by omega, by omega, by omega, by omega, by omega, by omega,
       by omega⟩)⟩

/-- Store used for C8: the stored `created_at` value carries surrounding
whitespace. -/
def c8Sheet : Sheet :=
  [REQUIRED_HEADERS,
   [" 2024-01-01 ", "t0", "7", "a@x.com", "30", "m", "US", "EN", "B2", "no",
    "PROFILE_COLLECTED", "", "", "", ""]]

/-- C8 counterexample: a non-empty `created_at` value with surrounding
whitespace is NOT preserved unchanged by an intake re-submission — the code
writes back the stripped value — refuting "preserves that value unchanged"
for every non-empty value. -/
theorem c8_counterexample_padded_created_at :
    getCell c8Sheet 2 1 = " 2024-01-01 " ∧
    (" 2024-01-01 " : String) ≠ "" ∧
    getCell (upsert_lead c8Sheet { telegram_id := 7, email := "a@x.com" }
      "t5").1 2 1 = "2024-01-01" ∧
    ("2024-01-01" : String) ≠ " 2024-01-01 " := by
  refine ⟨by decide, by decide, by decide, by decide⟩

/-- C8 amended: `created_at` is write-once up to stripping: when the stored
value strips to a non-empty string, `upsert_lead` writes back that stripped
value (so a value with no surrounding whitespace is preserved exactly), and
`update_from_skillspace` never touches the `created_at` column at all. -/
theorem c8_amended_created_at_preserved :
    (∀ (rest : Sheet) (lead : LeadData) (now_iso : String) (r : Nat),
      (find_row_by_email (REQUIRED_HEADERS :: rest) lead.email).orElse
          (fun _ => find_row_by_telegram (REQUIRED_HEADERS :: rest)
            lead.telegram_id) = some r →
      pyStrip (getCell (REQUIRED_HEADERS :: rest) r 1) ≠ "" →
      getCell (upsert_lead (REQUIRED_HEADERS :: rest) lead now_iso).1 r 1
        = pyStrip (getCell (REQUIRED_HEADERS :: rest) r 1)) ∧
    (∀ (rest : Sheet) (lead : LeadData) (now_iso : String) (r : Nat),
      (find_row_by_email (REQUIRED_HEADERS :: rest) lead.email).orElse
          (fun _ => find_row_by_telegram (REQUIRED_HEADERS :: rest)
            lead.telegram_id) = some r →
      pyStrip (getCell (REQUIRED_HEADERS :: rest) r 1)
        = getCell (REQUIRED_HEADERS :: rest) r 1 →
      getCell (REQUIRED_HEADERS :: rest) r 1 ≠ "" →
      getCell (upsert_lead (REQUIRED_HEADERS :: rest) lead now_iso).1 r 1
        = getCell (REQUIRED_HEADERS :: rest) r 1) ∧
    (∀ (rest : Sheet) (email stage now_iso event_name : String)
       (sc : Option ℚ) (lid cid : Option String) (r r' : Nat),
      find_row_by_email (REQUIRED_HEADERS :: rest) email = some r →
      1 ≤ r' →
      getCell (update_from_skillspace (REQUIRED_HEADERS :: rest) email stage
          now_iso event_name sc lid cid).1 r' 1
        = getCell (REQUIRED_HEADERS :: rest) r' 1) := by
  refine ⟨?_, ?_, ?_⟩
  · intro rest lead now_iso r hfind hne
    rw [upsert_lead_update_eq rest lead now_iso r hfind]
    dsimp only
    rw [upsertWrites_cell_1, if_pos hne]
  · intro rest lead now_iso r hfind hstable hne
    rw [upsert_lead_update_eq rest lead now_iso r hfind]
    dsimp only
    rw [upsertWrites_cell_1, if_pos (by rw [hstable]; exact hne), hstable]
  · intro rest email stage now_iso event_name sc lid cid r r' hfind h1
    obtain ⟨hne, haux⟩ := find_row_by_email_elim _ _ _ hfind
    obtain ⟨h1r, hlen⟩ := findRowAux_bounds _ _ _ _ haux
    rw [update_from_skillspace_eq rest email stage now_iso event_name sc lid
      cid r hfind]
    dsimp only
    by_cases hr : r' = r
    · subst hr
      exact updateWrites_frame _ _ _ _ _ _ _ _ _ _ (by omega)
        ⟨by omega, by omega, by omega, by omega, by omega, by omega⟩
    · exact getCell_applyWrites_other_row _ _ _ _ _ h1r h1 hr

/-- C8 witness: the amended write-once behaviour at a concrete store with
a trim-stable `created_at`, and the webhook update leaving it untouched. -/
theorem c8_amended_created_at_preserved_witness :
    getCell (upsert_lead (REQUIRED_HEADERS ::
        [["2024-01-01", "t0", "7", "a@x.com", "30", "m", "US", "EN", "B2",
          "no", "PROFILE_COLLECTED", "", "", "", ""]])
        { telegram_id := 7, email := "a@x.com" } "t5").1 2 1
      = getCell (REQUIRED_HEADERS ::
        [["2024-01-01", "t0", "7", "a@x.com", "30", "m", "US", "EN", "B2",
          "no", "PROFILE_COLLECTED", "", "", "", ""]]) 2 1 ∧
    getCell (update_from_skillspace (REQUIRED_HEADERS ::
        [["2024-01-01", "t0", "7", "a@x.com", "30", "m", "US", "EN", "B2",
          "no", "PROFILE_COLLECTED", "", "", "", ""]])
        "a@x.com" "TEST_GREAT" "t6" "test-end" (some 92) none none).1 2 1
      = getCell (REQUIRED_HEADERS ::
        [["2024-01-01", "t0", "7", "a@x.com", "30", "m", "US", "EN", "B2",
          "no", "PROFILE_COLLECTED", "", "", "", ""]]) 2 1 :=
  ⟨c8_amended_created_at_preserved.2.1
     [["2024-01-01", "t0", "7", "a@x.com", "30", "m", "US", "EN", "B2", "no",
       "PROFILE_COLLECTED", "", "", "", ""]]
     { telegram_id := 7, email := "a@x.com" } "t5" 2 (by decide) (by decide)
     (by decide),
   c8_amended_created_at_preserved.2.2
     [["2024-01-01", "t0", "7", "a@x.com", "30", "m", "US", "EN", "B2", "no",
       "PROFILE_COLLECTED", "", "", "", ""]]
     "a@x.com" "TEST_GREAT" "t6" "test-end" (some 92) none none 2 2
     (by decide) (by omega)⟩

/-- C6: delivering the same `test-end` event twice for the same email leaves
the matched record at the same final stage as delivering it once, and does
not create a second record — the row count after the second delivery equals
the row count after the first (which already equals the original count).
The matched row is assumed to be a data row (`2 ≤ r`) storing its email in
the email column. -/
theorem c6_duplicate_delivery_idempotent (cfg : Config) (rest : Sheet)
    (payload : J) (now1 now2 email : String) (r : Nat)
    (hev : extract_skillspace_event payload = "test-end")
    (hem : extract_email payload = some email)
    (hfind : find_row_by_email (REQUIRED_HEADERS :: rest) email = some r)
    (hr2 : 2 ≤ r)
    (hcell : getCell (REQUIRED_HEADERS :: rest) r 4 = email) :
    ((skillspace_webhook cfg
        (skillspace_webhook cfg (REQUIRED_HEADERS :: rest) payload now1).1
        payload now2).1).length
      = ((skillspace_webhook cfg (REQUIRED_HEADERS :: rest) payload
          now1).1).length ∧
    ((skillspace_webhook cfg (REQUIRED_HEADERS :: rest) payload now1).1).length
      = (REQUIRED_HEADERS :: rest).length ∧
    getCell (skillspace_webhook cfg
        (skillspace_webhook cfg (REQUIRED_HEADERS :: rest) payload now1).1
        payload now2).1 r 11
      = getCell
          (skillspace_webhook cfg (REQUIRED_HEADERS :: rest) payload now1).1
          r 11 := by
  by_cases hb : courseBlocked cfg payload = true
  · rw [skillspace_webhook_blocked cfg _ payload now1 email hev hem hb]
    dsimp only
    rw [skillspace_webhook_blocked cfg _ payload now2 email hev hem hb]
    exact ⟨rfl, rfl, rfl⟩
  · have hnb := Bool.eq_false_iff.mpr hb
    obtain ⟨hne, haux⟩ := find_row_by_email_elim _ _ _ hfind
    obtain ⟨h1r, hlen⟩ := findRowAux_bounds _ _ _ _ haux
    rw [skillspace_webhook_processed cfg _ payload now1 email hev hem hnb,
      processTestEnd_sheet cfg rest payload email now1 r hfind hr2]
    have hlen1 : (applyWrites (REQUIRED_HEADERS :: rest) r
        (updateWrites
          (classifyStage (extract_lesson_score payload) cfg.passThr
            cfg.greatThr)
          now1 "test-end" (extract_lesson_score payload)
          (extract_lesson_id payload) (extract_course_id payload))).length
        = (REQUIRED_HEADERS :: rest).length :=
      length_applyWrites _ _ _ h1r (by omega)
    have hcol4 : getCell (applyWrites (REQUIRED_HEADERS :: rest) r
        (updateWrites
          (classifyStage (extract_lesson_score payload) cfg.passThr
            cfg.greatThr)
          now1 "test-end" (extract_lesson_score payload)
          (extract_lesson_id payload) (extract_course_id payload))) r 4
        = email := by
      rw [updateWrites_frame _ _ _ _ _ _ _ _ _ _ (by omega)
        ⟨by omega, by omega, by omega, by omega, by omega, by omega⟩]
      exact hcell
    have hfind1 : find_row_by_email (applyWrites (REQUIRED_HEADERS :: rest) r
        (updateWrites
          (classifyStage (extract_lesson_score payload) cfg.passThr
            cfg.greatThr)
          now1 "test-end" (extract_lesson_score payload)
          (extract_lesson_id payload) (extract_course_id payload))) email
        = some r :=
      find_row_preserved rest email r _ hfind hcol4 hne
    have hhead1 : getRow (applyWrites (REQUIRED_HEADERS :: rest) r
        (updateWrites
          (classifyStage (extract_lesson_score payload) cfg.passThr
            cfg.greatThr)
          now1 "test-end" (extract_lesson_score payload)
          (extract_lesson_id payload) (extract_course_id payload))) 0
        = REQUIRED_HEADERS := by
      rw [getRow_applyWrites_ne _ _ _ _ (by omega)]
      rfl
    have hnil1 : applyWrites (REQUIRED_HEADERS :: rest) r
        (updateWrites
          (classifyStage (extract_lesson_score payload) cfg.passThr
            cfg.greatThr)
          now1 "test-end" (extract_lesson_score payload)
          (extract_lesson_id payload) (extract_course_id payload)) ≠ [] := by
      intro hnil
      rw [hnil] at hlen1
      simp at hlen1
    obtain ⟨t1, ht1⟩ := sheet_canonical_of_head _ hnil1 hhead1
    rw [skillspace_webhook_processed cfg _ payload now2 email hev hem hnb]
    rw [ht1]
    rw [processTestEnd_sheet cfg t1 payload email now2 r (ht1 ▸ hfind1) hr2]
    rw [← ht1]
    refine ⟨?_, hlen1, ?_⟩
    · rw [length_applyWrites _ _ _ h1r (by rw [hlen1]; omega)]
    · rw [updateWrites_cell_11, updateWrites_cell_11]

/-- C6 witness: duplicate delivery of a concrete scored `test-end` event for
`a@x.com` against a concrete one-lead store. -/
theorem c6_duplicate_delivery_idempotent_witness :
    ((skillspace_webhook {}
        (skillspace_webhook {}
          (REQUIRED_HEADERS ::
            [["2024-01-01", "t0", "7", "a@x.com", "30", "m", "US", "EN", "B2",
              "no", "INVITED_TO_COURSE", "", "", "", ""]])
          (J.obj [("event", J.str "test-end"),
                  ("user", J.obj [("email", J.str "a@x.com")]),
                  ("lesson", J.obj [("score", J.num 92), ("id", J.str "L1")])])
          "t1").1
        (J.obj [("event", J.str "test-end"),
                ("user", J.obj [("email", J.str "a@x.com")]),
                ("lesson", J.obj [("score", J.num 92), ("id", J.str "L1")])])
        "t2").1).length
      = ((skillspace_webhook {}
          (REQUIRED_HEADERS ::
            [["2024-01-01", "t0", "7", "a@x.com", "30", "m", "US", "EN", "B2",
              "no", "INVITED_TO_COURSE", "", "", "", ""]])
          (J.obj [("event", J.str "test-end"),
                  ("user", J.obj [("email", J.str "a@x.com")]),
                  ("lesson", J.obj [("score", J.num 92), ("id", J.str "L1")])])
          "t1").1).length ∧
    ((skillspace_webhook {}
        (REQUIRED_HEADERS ::
          [["2024-01-01", "t0", "7", "a@x.com", "30", "m", "US", "EN", "B2",
            "no", "INVITED_TO_COURSE", "", "", "", ""]])
        (J.obj [("event", J.str "test-end"),
                ("user", J.obj [("email", J.str "a@x.com")]),
                ("lesson", J.obj [("score", J.num 92), ("id", J.str "L1")])])
        "t1").1).length
      = (REQUIRED_HEADERS ::
          [["2024-01-01", "t0", "7", "a@x.com", "30", "m", "US", "EN", "B2",
            "no", "INVITED_TO_COURSE", "", "", "", ""]]).length ∧
    getCell (skillspace_webhook {}
        (skillspace_webhook {}
          (REQUIRED_HEADERS ::
            [["2024-01-01", "t0", "7", "a@x.com", "30", "m", "US", "EN", "B2",
              "no", "INVITED_TO_COURSE", "", "", "", ""]])
          (J.obj [("event", J.str "test-end"),
                  ("user", J.obj [("email", J.str "a@x.com")]),
                  ("lesson", J.obj [("score", J.num 92), ("id", J.str "L1")])])
          "t1").1
        (J.obj [("event", J.str "test-end"),
                ("user", J.obj [("email", J.str "a@x.com")]),
                ("lesson", J.obj [("score", J.num 92), ("id", J.str "L1")])])
        "t2").1 2 11
      = getCell (skillspace_webhook {}
          (REQUIRED_HEADERS ::
            [["2024-01-01", "t0", "7", "a@x.com", "30", "m", "US", "EN", "B2",
              "no", "INVITED_TO_COURSE", "", "", "", ""]])
          (J.obj [("event", J.str "test-end"),
                  ("user", J.obj [("email", J.str "a@x.com")]),
                  ("lesson", J.obj [("score", J.num 92), ("id", J.str "L1")])])
          "t1").1 2 11 :=
  c6_duplicate_delivery_idempotent {}
    [["2024-01-01", "t0", "7", "a@x.com", "30", "m", "US", "EN", "B2", "no",
      "INVITED_TO_COURSE", "", "", "", ""]]
    (J.obj [("event", J.str "test-end"),
            ("user", J.obj [("email", J.str "a@x.com")]),
            ("lesson", J.obj [("score", J.num 92), ("id", J.str "L1")])])
    "t1" "t2" "a@x.com" 2 (by decide) (by decide) (by decide) (by decide)
    (by decide)

end ProctoBo